import Mathlib

/-!
Shallow embedding of the strategy-engine modules of the lighter-trend-trader
repository: `src/modules/mean_reversion_trader.py`,
`src/modules/breakout_trader.py` and `src/modules/renko_ao_trader.py`.

Modelling conventions:
* Python floats are modelled as exact rationals (`ℚ`).
* A Python expression that would raise (e.g. `ZeroDivisionError`) is modelled
  by an `Option`/`Except` result, with `none`/`.error` standing for the raise;
  where a division is syntactically guarded so the denominator cannot be zero
  on the path that reaches it, total `ℚ` division is used and the guard noted.
* Python lists and `deque`s are Lean `List`s; `deque(maxlen=n)` append drops
  from the front when the length bound is reached.
* `time.time()` is passed in explicitly as a `now` parameter; the results of
  awaited order submissions are passed in as an explicit outcome value.
-/

/-- OHLCV candle: the `Candle` dataclass (textually identical in
`mean_reversion_trader.py` and `breakout_trader.py`).  The Python field
`open` is a Lean keyword; it is rendered `opn`. -/
structure Candle where
  open_time : Int
  opn : ℚ
  high : ℚ
  low : ℚ
  close : ℚ
  volume : ℚ
deriving Repr, DecidableEq

/-- Consecutive differences `closes[i] - closes[i-1]`, as produced by the
`for i in range(1, len(closes))` loop of `_compute_rsi`. -/
def deltas : List ℚ → List ℚ
  | a :: b :: rest => (b - a) :: deltas (b :: rest)
  | _ => []

/-- `_compute_rsi(candles, period)` (textually identical in
`mean_reversion_trader.py` lines 422-445 and `breakout_trader.py` lines
503-526).  The loop appends to BOTH `gains` and `losses` on every delta
(zeros included), so `losses` is non-empty whenever there is at least one
delta; the `if losses else 0.0001` emptiness test therefore never yields the
epsilon, and `avg_loss` is literal `0.0` when no delta is negative.  A zero
denominator is modelled by `none` (Python raises `ZeroDivisionError`). -/
def computeRsi (candles : List Candle) (period : ℕ) : Option ℚ :=
  if candles.length < period + 1 then some 50 else
  let closes := (candles.map Candle.close).drop (candles.length - (period + 1))
  let changes := deltas closes
  let gains := changes.map (fun c => if c > 0 then c else 0)
  let losses := changes.map (fun c => if c > 0 then 0 else |c|)
  let avg_gain : ℚ := if gains.isEmpty then 0 else gains.sum / (gains.length : ℚ)
  let avg_loss : ℚ := if losses.isEmpty then 1 / 10000 else losses.sum / (losses.length : ℚ)
  if avg_loss = 0 then none else
  let rs := avg_gain / avg_loss
  if 1 + rs = 0 then none else
  some (100 - 100 / (1 + rs))

/-- One-step absolute returns `abs((c[i] - c[i-1]) / c[i-1])`, collected only
when the previous close is positive, as in `_compute_volatility_bps`. -/
def absRets : List ℚ → List ℚ
  | a :: b :: rest => (if a > 0 then [|(b - a) / a|] else []) ++ absRets (b :: rest)
  | _ => []

/-- `_compute_volatility_bps(candles, lookback=20)` (identical in
`mean_reversion_trader.py` lines 472-492 and `breakout_trader.py` lines
582-602): mean absolute one-step return over the trailing window, times
10000. -/
def computeVolatilityBps (candles : List Candle) (lookback : ℕ) : ℚ :=
  if candles.length < 2 then 0 else
  let recent := candles.drop (candles.length - min lookback candles.length)
  if recent.length < 2 then 0 else
  let returns := absRets (recent.map Candle.close)
  if returns.isEmpty then 0 else
  returns.sum / (returns.length : ℚ) * 10000

/-- A flat candle (open = high = low = close, volume 0) at a given slot: the
shape produced by `_build_candles_from_price` for a single price print. -/
def candleOfClose (i : Int) (p : ℚ) : Candle :=
  ⟨i, p, p, p, p, 0⟩

/-- A window of flat candles, one per close, with increasing open times. -/
def candlesFrom (i : Int) : List ℚ → List Candle
  | [] => []
  | p :: ps => candleOfClose i p :: candlesFrom (i + 1) ps

/-- 15 strictly increasing closes: every close-to-close change is a gain. -/
def c3Closes : List ℚ :=
  [1, 2, 3, 4, 5, 6, 7, 8, 9, 10, 11, 12, 13, 14, 15]

/-- The spec's example window: closes `[100,99,...,91]` repeated three
times. -/
def c4Closes : List ℚ :=
  [100, 99, 98, 97, 96, 95, 94, 93, 92, 91,
   100, 99, 98, 97, 96, 95, 94, 93, 92, 91,
   100, 99, 98, 97, 96, 95, 94, 93, 92, 91]

/-! ### Mean-reversion (RSI+BB trend-following) trader -/

/-- Configuration fields of `MeanReversionTrader.__init__` used by the
embedded functions, with the source's default values in `mrDefaults`. -/
structure MrConfig where
  dry_run : Bool
  candle_interval_seconds : Int
  rsi_bullish_threshold : ℚ
  rsi_bearish_threshold : ℚ
  rsi_momentum_strength : ℚ
  bb_position_threshold : ℚ
  volume_multiplier : ℚ
  vol_min_bps : ℚ
  vol_max_bps : ℚ
  trend_confirmation_bps : ℚ
  take_profit_bps : ℚ
  stop_loss_bps : ℚ
  max_hold_minutes : ℚ
  max_position_size : ℚ
  min_position_size : ℚ
deriving Repr, DecidableEq

/-- Source defaults of `MeanReversionTrader.__init__`. -/
def mrDefaults : MrConfig :=
  ⟨true, 15, 50, 50, 10, 3/10, 12/10, 2, 25, 2, 3, 6, 5, 1/10, 1/10⟩

/-- The `Indicators` dataclass of `mean_reversion_trader.py`. -/
structure MrIndicators where
  ema_fast : ℚ
  ema_slow : ℚ
  bb_upper : ℚ
  bb_middle : ℚ
  bb_lower : ℚ
  rsi : ℚ
  atr : ℚ
  volume_ma : ℚ
  volatility_bps : ℚ
deriving Repr, DecidableEq

/-- The `Signal` dataclass of `mean_reversion_trader.py` /
`renko_ao_trader.py`. -/
structure MrSignal where
  side : String
  strength : ℚ
  entry_price : ℚ
  stop_loss : ℚ
  take_profit : ℚ
  size : ℚ
  reason : String
deriving Repr, DecidableEq

/-- `MeanReversionTrader._create_signal` (lines 540-583).  The division
`indicators.atr * 0.5 / price` sits under `risk_amount > 0`, which forces
`price ≠ 0`, so total `ℚ` division is faithful there. -/
def mrCreateSignal (cfg : MrConfig) (side : String) (price : ℚ)
    (ind : MrIndicators) (strength : ℚ) (reason : String) : MrSignal :=
  let stop_loss := if side = "long" then price * (1 - cfg.stop_loss_bps / 10000)
    else price * (1 + cfg.stop_loss_bps / 10000)
  let take_profit := if side = "long" then price * (1 + cfg.take_profit_bps / 10000)
    else price * (1 - cfg.take_profit_bps / 10000)
  let risk_amount := price * (cfg.stop_loss_bps / 10000)
  let size := if risk_amount > 0 then
      min cfg.max_position_size (max cfg.min_position_size (ind.atr * (1/2) / price))
    else cfg.min_position_size
  let size := if size > cfg.max_position_size then cfg.max_position_size else size
  ⟨side, min 1 (max 0 strength), price, stop_loss, take_profit, size, reason⟩

/-- `MeanReversionTrader._check_entry` (lines 496-538).  `.error ()` models
the `ZeroDivisionError` raised by `abs(ema_fast - ema_slow) / ema_slow` when
`ema_slow == 0` (caught by the loop-level handler in the source). -/
def mrCheckEntry (cfg : MrConfig) (price : ℚ) (ind : MrIndicators)
    (candles : List Candle) : Except Unit (Option MrSignal) :=
  if ind.volatility_bps < cfg.vol_min_bps ∨ ind.volatility_bps > cfg.vol_max_bps then
    .ok none
  else if (match candles.getLast? with
    | some lc => decide (lc.volume > 0 ∧ lc.volume < ind.volume_ma * cfg.volume_multiplier)
    | none => false) then
    .ok none
  else
  let bb_position := if ind.bb_upper > ind.bb_lower then
      (price - ind.bb_lower) / (ind.bb_upper - ind.bb_lower)
    else (1 : ℚ)/2
  let rsi_bullish := ind.rsi > cfg.rsi_bullish_threshold + cfg.rsi_momentum_strength
  let price_above_middle := bb_position ≥ 1/2 - cfg.bb_position_threshold
  let ema_bullish := ind.ema_fast > ind.ema_slow
  if ind.ema_slow = 0 then .error () else
  let ema_trend_strength := |ind.ema_fast - ind.ema_slow| / ind.ema_slow * 10000
  let trend_confirmed := ema_trend_strength ≥ cfg.trend_confirmation_bps
  if rsi_bullish ∧ price_above_middle ∧ ema_bullish ∧ trend_confirmed then
    .ok (some (mrCreateSignal cfg "long" price ind
      (min 1 ((ind.rsi - cfg.rsi_bullish_threshold) / 50))
      "RSI bullish + BB middle + EMA trend"))
  else
  let rsi_bearish := ind.rsi < cfg.rsi_bearish_threshold - cfg.rsi_momentum_strength
  let price_below_middle := bb_position ≤ 1/2 + cfg.bb_position_threshold
  let ema_bearish := ind.ema_fast < ind.ema_slow
  if rsi_bearish ∧ price_below_middle ∧ ema_bearish ∧ trend_confirmed then
    .ok (some (mrCreateSignal cfg "short" price ind
      (min 1 ((cfg.rsi_bearish_threshold - ind.rsi) / 50))
      "RSI bearish + BB middle + EMA trend"))
  else .ok none

/-- The `_current_position` dict of `mean_reversion_trader.py`. -/
structure MrPosition where
  side : String
  entry_price : ℚ
  size : ℚ
  stop_loss : ℚ
  take_profit : ℚ
  entry_time : ℚ
  order_index : ℕ
deriving Repr, DecidableEq

/-- `MeanReversionTrader._check_exit` (lines 585-623). -/
def mrCheckExit (cfg : MrConfig) (pos : MrPosition) (price : ℚ)
    (ind : MrIndicators) (now : ℚ) : Option String :=
  if pos.side = "long" ∧ price ≤ pos.stop_loss then some "stop_loss" else
  if pos.side = "short" ∧ price ≥ pos.stop_loss then some "stop_loss" else
  if pos.side = "long" ∧ price ≥ pos.take_profit then some "take_profit" else
  if pos.side = "short" ∧ price ≤ pos.take_profit then some "take_profit" else
  let mh := cfg.max_hold_minutes * 60
  let mh := if cfg.candle_interval_seconds < 60 then
      mh * ((cfg.candle_interval_seconds : ℚ) / 60) else mh
  if now - pos.entry_time > mh then some "time_stop" else
  if pos.side = "long" ∧ ind.rsi < cfg.rsi_bearish_threshold then some "trend_reversal" else
  if pos.side = "short" ∧ ind.rsi > cfg.rsi_bullish_threshold then some "trend_reversal" else
  none

/-- Outcome of an awaited single order submission (mean-reversion trader has
no retry loop): `success` carries the client order index, `raise` stands for
any exception escaping `create_limit_order`. -/
inductive MrSubmit where
  | success (orderIdx : ℕ)
  | raise
deriving Repr, DecidableEq

/-- A recorded trade, as handed to `pnl_tracker.record_trade`. -/
structure TradeRecord where
  strategy : String
  side : String
  entry_price : ℚ
  exit_price : ℚ
  size : ℚ
  pnl_pct : ℚ
  exit_reason : String
deriving Repr, DecidableEq

/-- Mutable state of `MeanReversionTrader` relevant to the claims. -/
structure MrState where
  pos : Option MrPosition
  candles : List Candle
  openOrders : List ℕ
deriving Repr, DecidableEq

/-- `MeanReversionTrader._enter_position` (lines 627-700), with the awaited
submission outcome passed in.  An exception (`.raise`) is caught by the
`except` at the bottom of the function, leaving the state unchanged. -/
def mrEnterPosition (cfg : MrConfig) (s : MrState) (sig : MrSignal) (now : ℚ)
    (hasClient : Bool) (outcome : MrSubmit) : MrState :=
  if ¬hasClient ∧ ¬cfg.dry_run then s else
  if sig.size < cfg.min_position_size then s else
  if cfg.dry_run then
    { s with pos := some ⟨sig.side, sig.entry_price, sig.size, sig.stop_loss,
               sig.take_profit, now, 0⟩ }
  else match outcome with
    | .success oi =>
        { s with pos := some ⟨sig.side, sig.entry_price, sig.size, sig.stop_loss,
                   sig.take_profit, now, oi⟩,
                 openOrders := oi :: s.openOrders }
    | .raise => s

/-- `MeanReversionTrader._exit_position` (lines 702-780), with the awaited
submission outcome passed in.  The PnL division by `entry_price` is modelled
with total `ℚ` division (entry prices are nonzero in every reachable state
the claims touch).  On a live submission exception the `except` handler
leaves `_current_position` set. -/
def mrExitPosition (cfg : MrConfig) (s : MrState) (reason : String)
    (priceNow : Option ℚ) (_now : ℚ) (hasClient : Bool) (outcome : MrSubmit) :
    MrState × Option TradeRecord :=
  match s.pos with
  | none => (s, none)
  | some pos =>
    if ¬hasClient ∧ ¬cfg.dry_run then ({ s with pos := none }, none) else
    let current_price := priceNow.getD pos.entry_price
    let pnl_pct := if pos.side = "long" then
        (current_price - pos.entry_price) / pos.entry_price * 100
      else (pos.entry_price - current_price) / pos.entry_price * 100
    if cfg.dry_run then ({ s with pos := none }, none)
    else match outcome with
      | .success _ =>
          ({ s with pos := none, openOrders := s.openOrders.erase pos.order_index },
           some ⟨"mean_reversion", pos.side, pos.entry_price, current_price,
                 pos.size, pnl_pct, reason⟩)
      | .raise => (s, none)

/-- Instrumentation for the trading-loop cycles: each entry/exit/scale
evaluation is recorded together with whether a position was open at the
moment of the call. -/
inductive Event where
  | checkedEntry (posOpen : Bool)
  | checkedExit (posOpen : Bool)
  | checkedScale (posOpen : Bool)
  | entered
  | exited
deriving Repr, DecidableEq

/-- One iteration of `MeanReversionTrader.run` (lines 169-216) from the point
the current price is read, with the indicator computation's result passed in
(it is a pure function of the candle window, embedded separately).  Mirrors
the source's guards: the exit check runs under `if self._current_position`,
the entry check under `if not self._current_position` — with no cooldown or
pause logic in between. -/
def mrCycle (cfg : MrConfig) (s : MrState) (price? : Option ℚ)
    (ind? : Option MrIndicators) (now : ℚ) (hasClient : Bool)
    (exitOut entryOut : MrSubmit) : MrState × List Event :=
  match price? with
  | none => (s, [])
  | some price =>
  match ind? with
  | none => (s, [])
  | some ind =>
    let step1 : MrState × List Event :=
      match s.pos with
      | some pos =>
        match mrCheckExit cfg pos price ind now with
        | some reason =>
            let r := mrExitPosition cfg s reason (some price) now hasClient exitOut
            (r.1, [Event.checkedExit true] ++
              (if r.1.pos.isNone then [Event.exited] else []))
        | none => (s, [Event.checkedExit true])
      | none => (s, [])
    let s1 := step1.1
    let step2 : MrState × List Event :=
      match s1.pos with
      | none =>
        match mrCheckEntry cfg price ind s1.candles with
        | .ok (some sig) =>
            (mrEnterPosition cfg s1 sig now hasClient entryOut,
             [Event.checkedEntry false, Event.entered])
        | _ => (s1, [Event.checkedEntry false])
      | some _ => (s1, [])
    (step2.1, step1.2 ++ step2.2)

/-! ### Breakout + momentum trader -/

/-- Configuration and engine constants of `BreakoutTrader.__init__`, with
source defaults in `bkDefaults`. -/
structure BkConfig where
  dry_run : Bool
  rsi_bullish_threshold : ℚ
  rsi_bearish_threshold : ℚ
  atr_min_bps : ℚ
  atr_max_bps : ℚ
  take_profit_atr_multiplier : ℚ
  stop_loss_atr_multiplier : ℚ
  trailing_stop_activation_atr : ℚ
  trailing_stop_distance_atr : ℚ
  max_hold_minutes : ℚ
  no_movement_minutes : ℚ
  max_position_size : ℚ
  min_position_size : ℚ
  max_losing_streak_before_pause : ℕ
  pause_duration_seconds : ℚ
  base_exit_cooldown_seconds : ℚ
deriving Repr, DecidableEq

/-- Source defaults of `BreakoutTrader.__init__`. -/
def bkDefaults : BkConfig :=
  ⟨true, 60, 40, 3, 15, 5/2, 3/2, 1, 1/2, 60, 30, 2/1000, 1/1000, 2, 300, 20⟩

/-- The `Indicators` dataclass of `breakout_trader.py`. -/
structure BkIndicators where
  ema_20 : ℚ
  ema_50 : ℚ
  rsi : ℚ
  macd : ℚ
  macd_signal : ℚ
  macd_histogram : ℚ
  atr : ℚ
  bb_upper : ℚ
  bb_middle : ℚ
  bb_lower : ℚ
  bb_width : ℚ
  volatility_bps : ℚ
  recent_high : ℚ
  recent_low : ℚ
  breakout_level_long : Option ℚ
  breakout_level_short : Option ℚ
  atr_expanding : Bool
  bb_width_expanding : Bool
deriving Repr, DecidableEq

/-- The `Signal` dataclass of `breakout_trader.py` (carries the broken
level). -/
structure BkSignal where
  side : String
  strength : ℚ
  entry_price : ℚ
  stop_loss : ℚ
  take_profit : ℚ
  size : ℚ
  reason : String
  breakout_level : ℚ
deriving Repr, DecidableEq

/-- `BreakoutTrader._create_signal` (lines 709-743). -/
def bkCreateSignal (cfg : BkConfig) (side : String) (price : ℚ)
    (ind : BkIndicators) (breakout_level : ℚ) : BkSignal :=
  let atr := if ind.atr ≤ 0 then price * (1/100) else ind.atr
  let stop_loss := if side = "long" then breakout_level - atr * cfg.stop_loss_atr_multiplier
    else breakout_level + atr * cfg.stop_loss_atr_multiplier
  let take_profit := if side = "long" then price + atr * cfg.take_profit_atr_multiplier
    else price - atr * cfg.take_profit_atr_multiplier
  let size := cfg.min_position_size
  let size := if ind.volatility_bps > 10 then size * (8/10) else size
  let size := if ind.rsi > 70 ∨ ind.rsi < 30 then size * (11/10) else size
  let size := max cfg.min_position_size (min cfg.max_position_size size)
  let strength := min 1 (|ind.macd_histogram| * 100)
  ⟨side, min 1 (max 0 strength), price, stop_loss, take_profit, size,
   "breakout_" ++ side, breakout_level⟩

/-- `BreakoutTrader._check_entry` (lines 655-707).  Python's
`if indicators.breakout_level_long and ...` is truthiness: `None` and `0.0`
are both falsy, hence the `lvl ≠ 0` conjunct. -/
def bkCheckEntry (cfg : BkConfig) (price : ℚ) (ind : BkIndicators)
    (candles : List Candle) : Option BkSignal :=
  if ind.volatility_bps < cfg.atr_min_bps ∨ ind.volatility_bps > cfg.atr_max_bps then
    none
  else
  let longSig : Option BkSignal :=
    match ind.breakout_level_long with
    | some lvl =>
      if lvl ≠ 0 ∧ price > lvl then
        match candles.getLast? with
        | some lc =>
          if lc.close > lvl ∧ ind.rsi > cfg.rsi_bullish_threshold ∧
              ind.macd > ind.macd_signal ∧ ind.atr_expanding = true ∧
              ind.ema_20 > ind.ema_50 ∧ price > ind.ema_20 then
            some (bkCreateSignal cfg "long" price ind lvl)
          else none
        | none => none
      else none
    | none => none
  match longSig with
  | some sg => some sg
  | none =>
    match ind.breakout_level_short with
    | some lvl =>
      if lvl ≠ 0 ∧ price < lvl then
        match candles.getLast? with
        | some lc =>
          if lc.close < lvl ∧ ind.rsi < cfg.rsi_bearish_threshold ∧
              ind.macd < ind.macd_signal ∧ ind.atr_expanding = true ∧
              ind.ema_20 < ind.ema_50 ∧ price < ind.ema_20 then
            some (bkCreateSignal cfg "short" price ind lvl)
          else none
        | none => none
      else none
    | none => none

/-- The `_current_position` dict of `breakout_trader.py`. -/
structure BkPosition where
  side : String
  entry_price : ℚ
  size : ℚ
  stop_loss : ℚ
  take_profit : ℚ
  entry_time : ℚ
  breakout_level : ℚ
  order_index : ℕ
deriving Repr, DecidableEq

/-- The trailing-stop block of `BreakoutTrader._check_exit` (lines 776-795):
when the ATR is positive and the tracked MFE has reached
`activation_threshold_bps = atr / entry_price * 10000 *
trailing_stop_activation_atr`, move the stop to price minus (long) / plus
(short) the trailing distance — but only if that tightens it. -/
def bkApplyTrailingStop (cfg : BkConfig) (pos : BkPosition) (mfe price : ℚ)
    (ind : BkIndicators) : BkPosition :=
  if ind.atr > 0 ∧
      mfe ≥ ind.atr / pos.entry_price * 10000 * cfg.trailing_stop_activation_atr then
    if pos.side = "long" then
      if price - ind.atr * cfg.trailing_stop_distance_atr > pos.stop_loss then
        { pos with stop_loss := price - ind.atr * cfg.trailing_stop_distance_atr }
      else pos
    else
      if price + ind.atr * cfg.trailing_stop_distance_atr < pos.stop_loss then
        { pos with stop_loss := price + ind.atr * cfg.trailing_stop_distance_atr }
      else pos
  else pos

/-- `BreakoutTrader._check_exit` (lines 745-830).  The per-position
`_mfe_tracker`/`_mae_tracker` dict entries for the single current position
are modelled as two `Option ℚ` values (`none` = key absent).  Returns the
possibly-mutated position (the trailing-stop block writes
`pos["stop_loss"]`), the updated MFE/MAE, and the exit reason if any.
The PnL divisions assume a nonzero entry price, as does the source. -/
def bkCheckExit (cfg : BkConfig) (pos : BkPosition) (mfe? mae? : Option ℚ)
    (candles : List Candle) (price : ℚ) (ind : BkIndicators) (now : ℚ) :
    BkPosition × ℚ × ℚ × Option String :=
  let current_pnl_pct := if pos.side = "long" then
      (price - pos.entry_price) / pos.entry_price * 100
    else (pos.entry_price - price) / pos.entry_price * 100
  let mfe := match mfe? with
    | none => current_pnl_pct
    | some m => max m current_pnl_pct
  let mae := match mae? with
    | none => current_pnl_pct
    | some m => min m current_pnl_pct
  let pos := bkApplyTrailingStop cfg pos mfe price ind
  let failure : Option String := match candles.getLast? with
    | some lc =>
      if pos.side = "long" ∧ lc.close < pos.breakout_level then some "breakout_failure"
      else if pos.side = "short" ∧ lc.close > pos.breakout_level then some "breakout_failure"
      else none
    | none => none
  match failure with
  | some r => (pos, mfe, mae, some r)
  | none =>
    if pos.side = "long" ∧ price ≤ pos.stop_loss then (pos, mfe, mae, some "stop_loss") else
    if pos.side = "short" ∧ price ≥ pos.stop_loss then (pos, mfe, mae, some "stop_loss") else
    if pos.side = "long" ∧ price ≥ pos.take_profit then (pos, mfe, mae, some "take_profit") else
    if pos.side = "short" ∧ price ≤ pos.take_profit then (pos, mfe, mae, some "take_profit") else
    if now - pos.entry_time > cfg.max_hold_minutes * 60 then (pos, mfe, mae, some "time_stop") else
    if now - pos.entry_time > cfg.no_movement_minutes * 60 then
      (if pos.side = "long" ∧ price ≤ pos.entry_price then (pos, mfe, mae, some "no_movement")
       else if pos.side = "short" ∧ price ≥ pos.entry_price then (pos, mfe, mae, some "no_movement")
       else (pos, mfe, mae, none))
    else (pos, mfe, mae, none)

/-- Outcome of the three-attempt submission loop used by the breakout and
renko traders: `success` carries the order index, `exhausted` means all
attempts failed with retryable errors and the loop fell through with
`order = None`, `raise` means a non-retryable exception propagated out of the
loop (re-raised by the last `else: raise`). -/
inductive SubmitOutcome where
  | success (orderIdx : ℕ)
  | exhausted
  | raise
deriving Repr, DecidableEq

/-- `deque(maxlen=n).append`: drop from the front once the bound is hit. -/
def dequeAppend {α : Type} (maxlen : ℕ) (xs : List α) (x : α) : List α :=
  if xs.length < maxlen then xs ++ [x] else xs.drop (xs.length - (maxlen - 1)) ++ [x]

/-- Mutable state of `BreakoutTrader` relevant to the claims. -/
structure BkState where
  pos : Option BkPosition
  candles : List Candle
  openOrders : List ℕ
  mfe : Option ℚ
  mae : Option ℚ
  recentPnl : List ℚ
  losingStreak : ℕ
  pauseUntil : ℚ
  lastExitTime : ℚ
  exitCooldown : ℚ
  recentExitReasons : List String
deriving Repr, DecidableEq

/-- `BreakoutTrader._enter_position` (lines 834-913): on `exhausted` the
function logs and returns while still `Flat`; on `raise` the bottom `except`
leaves the state unchanged. -/
def bkEnterPosition (cfg : BkConfig) (s : BkState) (sig : BkSignal) (now : ℚ)
    (hasClient : Bool) (outcome : SubmitOutcome) : BkState :=
  if ¬hasClient ∧ ¬cfg.dry_run then s else
  if sig.size < cfg.min_position_size then s else
  if cfg.dry_run then
    { s with pos := some ⟨sig.side, sig.entry_price, sig.size, sig.stop_loss,
               sig.take_profit, now, sig.breakout_level, 0⟩ }
  else match outcome with
    | .success oi =>
        { s with pos := some ⟨sig.side, sig.entry_price, sig.size, sig.stop_loss,
                   sig.take_profit, now, sig.breakout_level, oi⟩,
                 openOrders := oi :: s.openOrders }
    | .exhausted => s
    | .raise => s

/-- `BreakoutTrader._exit_position` (lines 915-1032).  The code AFTER the
submission loop (lines 977-1025: exit-reason/PnL bookkeeping, losing-streak
pause, `record_trade`, `_last_exit_time`, `_current_position = None`) runs
whenever the loop falls through — including when `order is None` after
exhausted retries; only a re-raised exception (`.raise`) reaches the
`except` and leaves the position set.  In dry-run mode the same tail runs
with no order placed. -/
def bkExitPosition (cfg : BkConfig) (s : BkState) (reason : String)
    (priceNow : Option ℚ) (now : ℚ) (hasClient : Bool)
    (outcome : SubmitOutcome) : BkState × Option TradeRecord :=
  match s.pos with
  | none => (s, none)
  | some pos =>
    if ¬hasClient ∧ ¬cfg.dry_run then ({ s with pos := none }, none) else
    let current_price := match priceNow with
      | some p => if p = 0 then pos.entry_price else p
      | none => pos.entry_price
    let pnl_pct := if pos.side = "long" then
        (current_price - pos.entry_price) / pos.entry_price * 100
      else (pos.entry_price - current_price) / pos.entry_price * 100
    let finish : BkState → BkState × Option TradeRecord := fun s0 =>
      let reasons := dequeAppend 5 s0.recentExitReasons reason
      let pnl := dequeAppend 10 s0.recentPnl pnl_pct
      let streak := if pnl_pct < 0 then s0.losingStreak + 1 else 0
      let pause := if pnl_pct < 0 ∧ cfg.max_losing_streak_before_pause ≤ streak then
          now + cfg.pause_duration_seconds else s0.pauseUntil
      ({ s0 with pos := none, mfe := none, mae := none,
                 recentExitReasons := reasons, recentPnl := pnl,
                 losingStreak := streak, pauseUntil := pause,
                 lastExitTime := now },
       some ⟨"breakout", pos.side, pos.entry_price, current_price, pos.size,
             pnl_pct, reason⟩)
    if cfg.dry_run then finish s
    else match outcome with
      | .success _ => finish { s with openOrders := s.openOrders.erase pos.order_index }
      | .exhausted => finish s
      | .raise => (s, none)

/-- `BreakoutTrader._update_adaptive_cooldown` (lines 1056-1081). -/
def bkAdaptiveCooldown (cfg : BkConfig) (ind? : Option BkIndicators)
    (recentReasons : List String) (losingStreak : ℕ) : ℚ :=
  match ind? with
  | none => cfg.base_exit_cooldown_seconds
  | some ind =>
    let cooldown := cfg.base_exit_cooldown_seconds
    let vol := ind.volatility_bps
    let cooldown := if vol > 10 then cooldown * (3/2)
      else if vol < 3 then cooldown * (8/10) else cooldown
    let cooldown := if 2 ≤ (recentReasons.filter (· = "stop_loss")).length then
        cooldown * (13/10) else cooldown
    let cooldown := if 2 ≤ losingStreak then cooldown * (12/10) else cooldown
    let cooldown := if recentReasons.any (· = "breakout_failure") then
        cooldown * 2 else cooldown
    min cooldown 120

/-- The exit half of one `BreakoutTrader.run` iteration (lines 227-231):
under `if self._current_position`, run the exit check (which may move the
trailing stop and updates the MFE/MAE trackers) and, when a reason fires,
the exit transition. -/
def bkCycleExitPhase (cfg : BkConfig) (s : BkState) (price : ℚ)
    (ind : BkIndicators) (now : ℚ) (hasClient : Bool)
    (exitOut : SubmitOutcome) : BkState × List Event :=
  match s.pos with
  | some pos =>
    let r := bkCheckExit cfg pos s.mfe s.mae s.candles price ind now
    let s' := { s with pos := some r.1, mfe := some r.2.1, mae := some r.2.2.1 }
    match r.2.2.2 with
    | some reason =>
        let e := bkExitPosition cfg s' reason (some price) now hasClient exitOut
        (e.1, [Event.checkedExit true] ++
          (if e.1.pos.isNone then [Event.exited] else []))
    | none => (s', [Event.checkedExit true])
  | none => (s, [])

/-- The entry half of one `BreakoutTrader.run` iteration (lines 233-253):
when flat, the losing-streak pause gate, the adaptive cooldown update and
gate, and only then the entry check. -/
def bkCycleEntryPhase (cfg : BkConfig) (s1 : BkState) (price : ℚ)
    (ind : BkIndicators) (now : ℚ) (hasClient : Bool)
    (entryOut : SubmitOutcome) : BkState × List Event :=
  match s1.pos with
  | none =>
    if now < s1.pauseUntil then (s1, [])
    else
      let s2 := { s1 with exitCooldown :=
        (bkAdaptiveCooldown cfg (some ind) s1.recentExitReasons s1.losingStreak) }
      if now - s2.lastExitTime < s2.exitCooldown then (s2, [])
      else match bkCheckEntry cfg price ind s2.candles with
        | some sig => (bkEnterPosition cfg s2 sig now hasClient entryOut,
                       [Event.checkedEntry false, Event.entered])
        | none => (s2, [Event.checkedEntry false])
  | some _ => (s1, [])

/-- One iteration of `BreakoutTrader.run` (lines 198-258) from the point the
current price is read: the exit phase followed by the entry phase. -/
def bkCycle (cfg : BkConfig) (s : BkState) (price? : Option ℚ)
    (ind? : Option BkIndicators) (now : ℚ) (hasClient : Bool)
    (exitOut entryOut : SubmitOutcome) : BkState × List Event :=
  match price? with
  | none => (s, [])
  | some price =>
  match ind? with
  | none => (s, [])
  | some ind =>
    let r1 := bkCycleExitPhase cfg s price ind now hasClient exitOut
    let r2 := bkCycleEntryPhase cfg r1.1 price ind now hasClient entryOut
    (r2.1, r1.2 ++ r2.2)

/-! ### Renko + Awesome Oscillator trader -/

/-- Configuration and engine constants of `RenkoAOTrader.__init__`, with
source defaults in `rkDefaults`. -/
structure RkConfig where
  dry_run : Bool
  bb_enhancement_threshold : ℚ
  min_divergence_strength : ℚ
  take_profit_bps : ℚ
  stop_loss_bps : ℚ
  max_hold_minutes : ℚ
  max_position_size : ℚ
  min_position_size : ℚ
  enable_scaling : Bool
  max_scales : ℕ
  scale_interval_seconds : ℚ
  scale_price_threshold_bps : ℚ
  scale_size_multiplier : ℚ
  max_losing_streak_before_pause : ℕ
  pause_duration_seconds : ℚ
  base_exit_cooldown_seconds : ℚ
deriving Repr, DecidableEq

/-- Source defaults of `RenkoAOTrader.__init__`. -/
def rkDefaults : RkConfig :=
  ⟨true, 2/10, 5/100, 12, 7, 8, 1/10, 1/10, true, 3, 60, 5, 1/2, 5, 180, 10⟩

/-- The `Indicators` dataclass of `renko_ao_trader.py`. -/
structure RkIndicators where
  ao : ℚ
  ao_prev : ℚ
  ao_trend : String
  bb_upper : ℚ
  bb_middle : ℚ
  bb_lower : ℚ
  price_position_bb : ℚ
  divergence_type : Option String
  divergence_strength : ℚ
deriving Repr, DecidableEq

/-- `RenkoAOTrader._create_signal` (lines 512-551).  The division
`abs(ao) * 0.1 / price` sits under `risk_amount > 0`, forcing `price ≠ 0`. -/
def rkCreateSignal (cfg : RkConfig) (side : String) (price : ℚ)
    (ind : RkIndicators) (strength : ℚ) (reason : String) : MrSignal :=
  let stop_loss := if side = "long" then price * (1 - cfg.stop_loss_bps / 10000)
    else price * (1 + cfg.stop_loss_bps / 10000)
  let take_profit := if side = "long" then price * (1 + cfg.take_profit_bps / 10000)
    else price * (1 - cfg.take_profit_bps / 10000)
  let risk_amount := price * (cfg.stop_loss_bps / 10000)
  let size := if risk_amount > 0 then
      min cfg.max_position_size (max cfg.min_position_size (|ind.ao| * (1/10) / price))
    else cfg.min_position_size
  let size := if size < 1/1000 then 1/1000 else size
  let size := min size cfg.max_position_size
  ⟨side, min 1 (max 0 strength), price, stop_loss, take_profit, size, reason⟩

/-- `RenkoAOTrader._check_entry` (lines 481-510). -/
def rkCheckEntry (cfg : RkConfig) (price : ℚ) (ind : RkIndicators) :
    Option MrSignal :=
  match ind.divergence_type with
  | none => none
  | some dtype =>
    if ind.divergence_strength < cfg.min_divergence_strength then none else
    let bb_enhanced :=
      if dtype = "bullish" then
        decide (ind.price_position_bb ≤ cfg.bb_enhancement_threshold)
      else if dtype = "bearish" then
        decide (ind.price_position_bb ≥ 1 - cfg.bb_enhancement_threshold)
      else false
    let side := if dtype = "bullish" then "long" else "short"
    let strength := if bb_enhanced then min 1 (ind.divergence_strength * (3/2))
      else ind.divergence_strength
    let reason := dtype ++ " divergence" ++ (if bb_enhanced then " + BB enhanced" else "")
    some (rkCreateSignal cfg side price ind strength reason)

/-- The `_current_position` dict of `renko_ao_trader.py` (with
`initial_size` recorded for scaling). -/
structure RkPosition where
  side : String
  entry_price : ℚ
  size : ℚ
  initial_size : ℚ
  stop_loss : ℚ
  take_profit : ℚ
  entry_time : ℚ
  order_index : ℕ
deriving Repr, DecidableEq

/-- An element of `RenkoAOTrader._scaled_entries`. -/
structure ScaledEntry where
  price : ℚ
  size : ℚ
  time : ℚ
  order_index : ℕ
deriving Repr, DecidableEq

/-- `RenkoAOTrader._check_exit` (lines 553-588). -/
def rkCheckExit (cfg : RkConfig) (pos : RkPosition) (price : ℚ)
    (ind : RkIndicators) (now : ℚ) : Option String :=
  if pos.side = "long" ∧ price ≤ pos.stop_loss then some "stop_loss" else
  if pos.side = "short" ∧ price ≥ pos.stop_loss then some "stop_loss" else
  if pos.side = "long" ∧ price ≥ pos.take_profit then some "take_profit" else
  if pos.side = "short" ∧ price ≤ pos.take_profit then some "take_profit" else
  if now - pos.entry_time > cfg.max_hold_minutes * 60 then some "time_stop" else
  if pos.side = "long" ∧ ind.ao_trend = "bearish" ∧ ind.ao < 0 then some "ao_reversal" else
  if pos.side = "short" ∧ ind.ao_trend = "bullish" ∧ ind.ao > 0 then some "ao_reversal" else
  none

/-- Mutable state of `RenkoAOTrader` relevant to the claims. -/
structure RkState where
  pos : Option RkPosition
  scaledEntries : List ScaledEntry
  openOrders : List ℕ
  recentPnl : List ℚ
  losingStreak : ℕ
  pauseUntil : ℚ
  lastExitTime : ℚ
  exitCooldown : ℚ
  recentExitReasons : List String
  brickSize : Option ℚ
deriving Repr, DecidableEq

/-- `RenkoAOTrader._check_scale_in` (lines 847-953).  The order submission
has no retry loop; any exception (`.raise`, which also covers the
`AttributeError` hit when no trading client is attached) reaches the
`except` and leaves the state unchanged.  On success the entry is appended
FIRST (line 923) and only then `num_scales = len(self._scaled_entries) + 1`
(line 938) is computed, so the k-th scale-in uses
`stop_multiplier = 1.5 + (k + 1) * 0.5`.  PnL-style divisions assume a
nonzero entry price; `total_size` is positive for positive sizes. -/
def rkCheckScaleIn (cfg : RkConfig) (s : RkState) (price : ℚ)
    (ind : RkIndicators) (now : ℚ) (outcome : MrSubmit) : RkState :=
  match s.pos with
  | none => s
  | some pos =>
    if ¬cfg.enable_scaling then s else
    match ind.divergence_type with
    | none => s
    | some dtype =>
      if cfg.max_scales ≤ s.scaledEntries.length then s else
      let last_scale_time := match s.scaledEntries.getLast? with
        | some e => e.time
        | none => pos.entry_time
      if now - last_scale_time < cfg.scale_interval_seconds then s else
      let price_move_bps := if pos.side = "long" then
          (pos.entry_price - price) / pos.entry_price * 10000
        else (price - pos.entry_price) / pos.entry_price * 10000
      let should_scale := price_move_bps ≥ cfg.scale_price_threshold_bps ∧
        ((pos.side = "long" ∧ dtype = "bullish") ∨
         (pos.side = "short" ∧ dtype = "bearish"))
      if ¬should_scale then s else
      let initial_size := pos.initial_size
      let scale_size := max (1/1000) (min (initial_size * cfg.scale_size_multiplier)
        cfg.max_position_size)
      let total_size := pos.size + scale_size
      let new_avg_entry := (pos.entry_price * pos.size + price * scale_size) / total_size
      match outcome with
      | .raise => s
      | .success oi =>
        let entries := s.scaledEntries ++ [⟨price, scale_size, now, oi⟩]
        let num_scales : ℕ := entries.length + 1
        let stop_multiplier : ℚ := 3/2 + (num_scales : ℚ) * (1/2)
        let new_stop := if pos.side = "long" then
            new_avg_entry * (1 - cfg.stop_loss_bps * stop_multiplier / 10000)
          else new_avg_entry * (1 + cfg.stop_loss_bps * stop_multiplier / 10000)
        let pos' : RkPosition :=
          { pos with
            entry_price := new_avg_entry
            size := total_size
            initial_size := initial_size
            stop_loss := new_stop }
        { s with
          pos := some pos'
          scaledEntries := entries
          openOrders := oi :: s.openOrders }

/-- `RenkoAOTrader._enter_position` (lines 592-690): `exhausted` returns
while still flat; `raise` is caught leaving the state unchanged; a new
position resets `_scaled_entries`. -/
def rkEnterPosition (cfg : RkConfig) (s : RkState) (sig : MrSignal) (now : ℚ)
    (hasClient : Bool) (outcome : SubmitOutcome) : RkState :=
  if ¬hasClient ∧ ¬cfg.dry_run then s else
  if sig.size < cfg.min_position_size then s else
  if cfg.dry_run then
    { s with pos := some ⟨sig.side, sig.entry_price, sig.size, sig.size,
               sig.stop_loss, sig.take_profit, now, 0⟩,
             scaledEntries := [] }
  else match outcome with
    | .success oi =>
        { s with pos := some ⟨sig.side, sig.entry_price, sig.size, sig.size,
                   sig.stop_loss, sig.take_profit, now, oi⟩,
                 scaledEntries := [],
                 openOrders := oi :: s.openOrders }
    | .exhausted => s
    | .raise => s

/-- `RenkoAOTrader._exit_position` (lines 692-838).  When the submission
loop falls through with `order is None` the function RAISES a
`RuntimeError` (line 767) which the bottom `except` catches, leaving the
position set — so both `exhausted` and `raise` abort the exit.  In live
success the exit-reason/PnL/streak bookkeeping and the trade record happen
inside the `else`; the dry-run branch skips them but still clears the
position and records the exit time (lines 833-835). -/
def rkExitPosition (cfg : RkConfig) (s : RkState) (reason : String)
    (priceNow : Option ℚ) (now : ℚ) (hasClient : Bool)
    (outcome : SubmitOutcome) : RkState × Option TradeRecord :=
  match s.pos with
  | none => (s, none)
  | some pos =>
    if ¬hasClient ∧ ¬cfg.dry_run then ({ s with pos := none }, none) else
    let current_price := match priceNow with
      | some p => if p = 0 then pos.entry_price else p
      | none => pos.entry_price
    let pnl_pct := if pos.side = "long" then
        (current_price - pos.entry_price) / pos.entry_price * 100
      else (pos.entry_price - current_price) / pos.entry_price * 100
    if cfg.dry_run then
      ({ s with pos := none, scaledEntries := [], lastExitTime := now }, none)
    else match outcome with
      | .exhausted => (s, none)
      | .raise => (s, none)
      | .success _ =>
        let reasons := dequeAppend 5 s.recentExitReasons reason
        let pnl := dequeAppend 10 s.recentPnl pnl_pct
        let streak := if pnl_pct < 0 then s.losingStreak + 1 else 0
        let pause := if pnl_pct < 0 ∧ cfg.max_losing_streak_before_pause ≤ streak then
            now + cfg.pause_duration_seconds else s.pauseUntil
        ({ s with pos := none, scaledEntries := [],
                  openOrders := s.openOrders.filter (fun oi =>
                    oi ≠ pos.order_index ∧
                    s.scaledEntries.all (fun e => e.order_index ≠ oi)),
                  recentExitReasons := reasons, recentPnl := pnl,
                  losingStreak := streak, pauseUntil := pause,
                  lastExitTime := now },
         some ⟨"renko_ao", pos.side, pos.entry_price, current_price, pos.size,
               pnl_pct, reason⟩)

/-- The `vol_bps` local of `RenkoAOTrader._update_adaptive_cooldown`
(lines 993-996): brick size as bps of price.  Python's
`if self._current_renko_brick_size and price > 0` tests brick-size
truthiness (`None` and `0.0` falsy). -/
def rkVolBps (brickSize? : Option ℚ) (price : ℚ) : ℚ :=
  match brickSize? with
  | some b => if b ≠ 0 ∧ price > 0 then b / price * 10000 else 0
  | none => 0

/-- `RenkoAOTrader._update_adaptive_cooldown` (lines 986-1022). -/
def rkAdaptiveCooldown (cfg : RkConfig) (ind? : Option RkIndicators)
    (price? : Option ℚ) (brickSize? : Option ℚ) (recentReasons : List String)
    (losingStreak : ℕ) : ℚ :=
  match ind?, price? with
  | some _, some price =>
    let vol_bps : ℚ := rkVolBps brickSize? price
    let cooldown := cfg.base_exit_cooldown_seconds
    let cooldown := if vol_bps > 8 then cooldown * (3/2)
      else if vol_bps < 2 then cooldown * (8/10) else cooldown
    let cooldown := if 2 ≤ (recentReasons.filter (· = "stop_loss")).length then
        cooldown * (13/10) else cooldown
    let cooldown := if 2 ≤ losingStreak then cooldown * (12/10) else cooldown
    min cooldown 60
  | _, _ => cfg.base_exit_cooldown_seconds

/-- One iteration of `RenkoAOTrader.run` (lines 179-259) from the point the
current price is read, with brick building and the indicator computation
abstracted into `enoughBricks` and `ind?`: exit check (and, when no exit
fired and scaling is enabled, the scale-in check) under
`if self._current_position`, and the pause gate, adaptive-cooldown gate and
entry check in the `else` branch. -/
def rkCycle (cfg : RkConfig) (s : RkState) (price? : Option ℚ)
    (enoughBricks : Bool) (ind? : Option RkIndicators) (now : ℚ)
    (hasClient : Bool) (exitOut : SubmitOutcome) (scaleOut : MrSubmit)
    (entryOut : SubmitOutcome) : RkState × List Event :=
  match price? with
  | none => (s, [])
  | some price =>
  if ¬enoughBricks then (s, []) else
  match ind? with
  | none => (s, [])
  | some ind =>
    match s.pos with
    | some pos =>
      match rkCheckExit cfg pos price ind now with
      | some reason =>
          let e := rkExitPosition cfg s reason (some price) now hasClient exitOut
          (e.1, [Event.checkedExit true] ++
            (if e.1.pos.isNone then [Event.exited] else []))
      | none =>
          if cfg.enable_scaling then
            (rkCheckScaleIn cfg s price ind now scaleOut,
             [Event.checkedExit true, Event.checkedScale true])
          else (s, [Event.checkedExit true])
    | none =>
      if now < s.pauseUntil then (s, []) else
      let s2 := { s with exitCooldown := (rkAdaptiveCooldown cfg (some ind)
        (some price) s.brickSize s.recentExitReasons s.losingStreak) }
      if now - s2.lastExitTime < s2.exitCooldown then (s2, []) else
      match rkCheckEntry cfg price ind with
      | some sig => (rkEnterPosition cfg s2 sig now hasClient entryOut,
                     [Event.checkedEntry false, Event.entered])
      | none => (s2, [Event.checkedEntry false])

/-! ### Tick-built candle window (`_build_candles_from_price`) -/

/-- In-place mutation of the last candle's high/low/close (the else branch
of `_build_candles_from_price`). -/
def updateLastCandle (candles : List Candle) (price : ℚ) : List Candle :=
  match candles.getLast? with
  | none => candles
  | some last => candles.dropLast ++
      [{ last with high := max last.high price, low := min last.low price,
                   close := price }]

/-- One call of `_build_candles_from_price` (identical logic in
`mean_reversion_trader.py` lines 320-351 and `breakout_trader.py` lines
374-400) with a known price.  `self._candles` is `deque(maxlen=200)`, so the
append evicts the oldest candle.  The returned Bool records whether the
`if len(self._candles) > 200` truncation branch was entered — entering it
would rebind the deque to `self._candles[-200:]`, a slice expression that
raises `TypeError` on a deque. -/
def buildCandlesStep (interval : Int) (candles : List Candle) (price : ℚ)
    (now : Int) : List Candle × Bool :=
  let slot := (Int.fdiv now interval) * interval
  let needNew := match candles.getLast? with
    | none => true
    | some last => last.open_time < slot
  if needNew then
    let cs := dequeAppend 200 candles ⟨slot, price, price, price, price, 0⟩
    if 200 < cs.length then (cs.drop (cs.length - 200), true)
    else (cs, false)
  else (updateLastCandle candles price, false)

/-- Folding a whole observation stream `(price, now)` through
`_build_candles_from_price`, starting from the empty window and or-ing the
truncation-branch flag. -/
def buildCandlesRun (interval : Int) (obs : List (ℚ × Int)) :
    List Candle × Bool :=
  obs.foldl (fun acc o =>
    let r := buildCandlesStep interval acc.1 o.1 o.2
    (r.1, acc.2 || r.2)) ([], false)

/-! ### Instrumentation predicate and scaling invariant -/

/-- The guard discipline the run loops must respect: an entry evaluation only
with no open position; exit and scale evaluations only with one open. -/
def eventOk : Event → Bool
  | .checkedEntry b => !b
  | .checkedExit b => b
  | .checkedScale b => b
  | .entered => true
  | .exited => true

/-- Folding a sequence of scale-in opportunities
`(price, indicators, now, submission outcome)` through
`RenkoAOTrader._check_scale_in`. -/
def applyScaleIns (cfg : RkConfig) (s : RkState) :
    List (ℚ × RkIndicators × ℚ × MrSubmit) → RkState
  | [] => s
  | i :: rest =>
      applyScaleIns cfg (rkCheckScaleIn cfg s i.1 i.2.1 i.2.2.1 i.2.2.2) rest

/-- Scaled-position bookkeeping invariant, relative to the ghost initial fill
`(p0, s0)`: the scale count is bounded by `max_scales`, every scale fill has
positive size, and the position's size and entry price are the total and the
size-weighted aggregate of the initial fill plus all scale fills. -/
def ScaleInv (cfg : RkConfig) (p0 s0 : ℚ) (s : RkState) : Prop :=
  s.scaledEntries.length ≤ cfg.max_scales ∧
  (∀ e ∈ s.scaledEntries, 0 < e.size) ∧
  ∃ pos, s.pos = some pos ∧
    0 < pos.size ∧
    pos.size = s0 + (s.scaledEntries.map ScaledEntry.size).sum ∧
    pos.entry_price * pos.size =
      p0 * s0 + (s.scaledEntries.map (fun e => e.price * e.size)).sum

/-! ## Theorems -/

/-- C3: the claim says the RSI computation never hits a division error on a
window of at least `period+1` candles because the zero-loss denominator is
floored to an epsilon.  The code contradicts its own `# Avoid division by
zero` comment: on a window whose deltas are all gains the `losses` list holds
only zeros but is non-empty, so the `if losses else 0.0001` floor is skipped,
`avg_loss` is literal `0.0`, and `rs = avg_gain / avg_loss` raises
`ZeroDivisionError` (modelled as `none`) on the 15 strictly increasing
closes of `c3Closes`. -/
theorem c3_rsi_zero_division :
    computeRsi (candlesFrom 0 c3Closes) 14 = none := by
  norm_num [computeRsi, candlesFrom, candleOfClose, c3Closes, deltas]

/-- C4 counterexample: on the spec's window `[100,...,91]×3` with RSI period
14 the computed RSI is `450/11 ≈ 40.9`, not below 30 — the ×3 repetition puts
a `91 → 100` gain inside the trailing 15 closes, so the claim's "RSI reading
below 30" is false at this input. -/
theorem c4_rsi_not_below_30 :
    computeRsi (candlesFrom 0 c4Closes) 14 = some (450 / 11) ∧
      ¬ ((450 : ℚ) / 11 < 30) := by
  constructor
  · norm_num [computeRsi, candlesFrom, candleOfClose, c4Closes, deltas]
  · norm_num

/-- C4 amended: feeding the `[100,...,91]×3` window into the trend-following
policy with RSI period 14 yields RSI `450/11 ≈ 40.9` (not below 30), the
window's volatility exceeds the 25 bps maximum entry filter, and therefore
the entry check emits no Signal at any price — in particular at the lower
Bollinger edge. -/
theorem c4_amended :
    computeRsi (candlesFrom 0 c4Closes) 14 = some (450 / 11) ∧
    computeVolatilityBps (candlesFrom 0 c4Closes) 20 > 25 ∧
    (∀ (price : ℚ) (ind : MrIndicators),
      ind.volatility_bps = computeVolatilityBps (candlesFrom 0 c4Closes) 20 →
      mrCheckEntry mrDefaults price ind (candlesFrom 0 c4Closes) = .ok none) := by
  have hvol : computeVolatilityBps (candlesFrom 0 c4Closes) 20 > 25 := by
    norm_num [computeVolatilityBps, candlesFrom, candleOfClose, c4Closes, absRets,
      abs_of_pos, abs_of_neg, abs_of_nonneg]
  refine ⟨?_, hvol, ?_⟩
  · norm_num [computeRsi, candlesFrom, candleOfClose, c4Closes, deltas]
  · intro price ind h
    unfold mrCheckEntry
    rw [if_pos]
    right
    rw [h]
    exact hvol

/-- C4 witness: the amended no-signal conclusion applied at a concrete price
and a concrete indicator record carrying the window's computed volatility. -/
theorem c4_amended_witness :
    mrCheckEntry mrDefaults 90
      ⟨95, 96, 97, 95, 93, 450/11, 1,
       0, computeVolatilityBps (candlesFrom 0 c4Closes) 20⟩
      (candlesFrom 0 c4Closes) = .ok none :=
  c4_amended.2.2 90 _ rfl

/-- C1: the claim says a live exit whose order submission ultimately fails
(no order created after the bounded retries) leaves the engine `Open` with no
trade record.  `BreakoutTrader._exit_position` violates this: when the
three-attempt loop falls through with `order = None` (`.exhausted`), the tail
of the function still runs — the position is cleared, the exit time is
stamped, and a trade record is emitted, exactly as if the exit had executed.
(`RenkoAOTrader._exit_position` instead raises `RuntimeError` in that case
and keeps the position.) -/
theorem c1_breakout_failed_exit_treated_as_closed :
    bkExitPosition { bkDefaults with dry_run := false }
      ⟨some ⟨"long", 100, 1/1000, 985/10, 110, 0, 99, 7⟩, [], [7], some 0,
       some 0, [], 0, 0, 0, 20, []⟩
      "stop_loss" (some 99) 1000 true .exhausted =
    (⟨none, [], [7], none, none, [-1], 1, 0, 1000, 20, ["stop_loss"]⟩,
     some ⟨"breakout", "long", 100, 99, 1/1000, -1, "stop_loss"⟩) := by
  norm_num [bkExitPosition, bkDefaults, dequeAppend]

/-- C6: the claim (and the code's own comment, "2.0x for 1 scale, 2.5x for 2,
3.0x for 3") says the k-th scale-in re-sets the stop at 2.0×/2.5×/3.0× the
base stop distance.  The code appends the new entry to `_scaled_entries`
(line 923) BEFORE computing `num_scales = len(self._scaled_entries) + 1`
(line 938), so the first scale-in already uses multiplier
`1.5 + 2·0.5 = 2.5`, not 2.0: here a long from entry 100, size 0.1, first
scale at price 99.9 gives average entry 2999/30 and a stop at 2.5× the 7 bps
base distance below it. -/
theorem c6_first_scale_uses_2_5x_multiplier :
    ((rkCheckScaleIn rkDefaults
        ⟨some ⟨"long", 100, 1/10, 1/10, 9993/100, 10012/100, 0, 1⟩, [], [1],
         [], 0, 0, 0, 10, [], none⟩
        (999/10) ⟨0, 0, "neutral", 0, 0, 0, 0, some "bullish", 1/10⟩ 100
        (.success 2)).pos =
      some ⟨"long", 2999/30, 3/20, 1/10, 2999/30 * (1 - 7 * (5/2) / 10000),
            10012/100, 0, 1⟩) ∧
    (2999/30 * (1 - 7 * (5/2) / 10000) : ℚ) ≠ 2999/30 * (1 - 7 * 2 / 10000) := by
  constructor
  · norm_num [rkCheckScaleIn, rkDefaults]
  · norm_num

/-- C7: the claim says the trailing stop activates exactly when the MFE
exceeds one ATR expressed in bps of the entry price.  The code compares
`mfe` — tracked in PERCENT — against `activation_threshold_bps` — in basis
points — so activation needs a move 100× larger than documented ("After 1x
ATR profit, trail by 0.5x ATR" in the class docstring).  Here: entry 100,
ATR 1 (= 100 bps of entry), price 101.5, so MFE is 150 bps — past the
threshold — yet `mfe = 1.5 < 100` and the stop is left untouched instead of
trailing to `101.5 - 0.5·ATR = 101`. -/
theorem c7_trailing_stop_unit_mismatch :
    bkCheckExit bkDefaults ⟨"long", 100, 1/1000, 985/10, 110, 0, 99, 0⟩
      none none [candleOfClose 0 (203/2)] (203/2)
      ⟨0, 0, 0, 0, 0, 0, 1, 0, 0, 0, 0, 0, 0, 0, none, none, false, false⟩
      10 =
    (⟨"long", 100, 1/1000, 985/10, 110, 0, 99, 0⟩, 3/2, 3/2, none) ∧
    ((3:ℚ)/2) * 100 ≥ 1 / 100 * 10000 * 1 := by
  have hls : ("long" : String) ≠ "short" := by decide
  constructor
  · norm_num [bkCheckExit, bkApplyTrailingStop, bkDefaults, candleOfClose, hls]
  · norm_num

/-- A `deque(maxlen=200)` append never yields more than 200 elements. -/
theorem dequeAppend_200_length_le {α : Type} (xs : List α) (x : α) :
    (dequeAppend 200 xs x).length ≤ 200 := by
  unfold dequeAppend
  split
  · simp only [List.length_append, List.length_cons, List.length_nil]
    omega
  · simp only [List.length_append, List.length_drop, List.length_cons,
      List.length_nil]
    omega

/-- `updateLastCandle` preserves the window length. -/
theorem updateLastCandle_length (cs : List Candle) (p : ℚ) :
    (updateLastCandle cs p).length = cs.length := by
  unfold updateLastCandle
  cases hl : cs.getLast? with
  | none => rfl
  | some last =>
    have hne : cs ≠ [] := by
      intro hc
      rw [hc] at hl
      exact Option.noConfusion hl
    have hpos : 1 ≤ cs.length := List.length_pos.mpr hne
    simp only [List.length_append, List.length_dropLast, List.length_cons,
      List.length_nil]
    omega

/-- One `_build_candles_from_price` call never enters the truncation
branch. -/
theorem buildCandlesStep_no_truncation (interval : Int) (cs : List Candle)
    (p : ℚ) (n : Int) : (buildCandlesStep interval cs p n).2 = false := by
  have h := dequeAppend_200_length_le cs
    (⟨(Int.fdiv n interval) * interval, p, p, p, p, 0⟩ : Candle)
  have hng : ¬ (200 < (dequeAppend 200 cs
      (⟨(Int.fdiv n interval) * interval, p, p, p, p, 0⟩ : Candle)).length) := by
    omega
  unfold buildCandlesStep
  cases hl : cs.getLast? with
  | none => simp [hl, hng]
  | some last =>
    by_cases hlt : last.open_time < (Int.fdiv n interval) * interval
    · simp [hl, hlt, hng]
    · simp [hl, hlt]

/-- One `_build_candles_from_price` call keeps the window within 200
candles. -/
theorem buildCandlesStep_length_le (interval : Int) (cs : List Candle)
    (p : ℚ) (n : Int) (h : cs.length ≤ 200) :
    (buildCandlesStep interval cs p n).1.length ≤ 200 := by
  have hd := dequeAppend_200_length_le cs
    (⟨(Int.fdiv n interval) * interval, p, p, p, p, 0⟩ : Candle)
  have hng : ¬ (200 < (dequeAppend 200 cs
      (⟨(Int.fdiv n interval) * interval, p, p, p, p, 0⟩ : Candle)).length) := by
    omega
  unfold buildCandlesStep
  cases hl : cs.getLast? with
  | none => simpa [hl, hng] using hd
  | some last =>
    by_cases hlt : last.open_time < (Int.fdiv n interval) * interval
    · simpa [hl, hlt, hng] using hd
    · simpa [hl, hlt, updateLastCandle_length] using h

/-- C10: for every sequence of observed prices, the tick-built candle window
(`deque(maxlen=200)`) never holds more than 200 candles, and the explicit
`if len(self._candles) > 200` truncation branch — whose body would rebind the
deque to the slice `self._candles[-200:]` and raise `TypeError` — is never
entered, so building candles from prices never raises. -/
theorem c10_candle_window_bounded (interval : Int) (obs : List (ℚ × Int)) :
    (buildCandlesRun interval obs).1.length ≤ 200 ∧
    (buildCandlesRun interval obs).2 = false := by
  suffices h : ∀ (acc : List Candle), acc.length ≤ 200 →
      ((obs.foldl (fun acc o =>
          let r := buildCandlesStep interval acc.1 o.1 o.2
          (r.1, acc.2 || r.2)) (acc, false)).1.length ≤ 200 ∧
       (obs.foldl (fun acc o =>
          let r := buildCandlesStep interval acc.1 o.1 o.2
          (r.1, acc.2 || r.2)) (acc, false)).2 = false) by
    exact h [] (by simp)
  induction obs with
  | nil => intro acc hacc; exact ⟨hacc, rfl⟩
  | cons o rest ih =>
    intro acc hacc
    simp only [List.foldl_cons]
    have hflag := buildCandlesStep_no_truncation interval acc o.1 o.2
    have hlen := buildCandlesStep_length_le interval acc o.1 o.2 hacc
    rw [hflag]
    exact ih _ hlen

/-- C2: in each of the three trading loops, an entry is evaluated (and a
position entered) only when no position is open, and exit/scale evaluation
happens only when one is open — the instrumented cycles only ever emit
well-guarded events.  A strategy instance holds at most one position by
construction (`_current_position` is a single optional record), and these
guards are what keep entry from stacking a second one. -/
theorem c2_position_guards :
    (∀ (cfg : MrConfig) (s : MrState) (p? : Option ℚ)
       (i? : Option MrIndicators) (now : ℚ) (hc : Bool) (xo eo : MrSubmit),
       ((mrCycle cfg s p? i? now hc xo eo).2.all eventOk) = true) ∧
    (∀ (cfg : BkConfig) (s : BkState) (p? : Option ℚ)
       (i? : Option BkIndicators) (now : ℚ) (hc : Bool)
       (xo eo : SubmitOutcome),
       ((bkCycle cfg s p? i? now hc xo eo).2.all eventOk) = true) ∧
    (∀ (cfg : RkConfig) (s : RkState) (p? : Option ℚ) (eb : Bool)
       (i? : Option RkIndicators) (now : ℚ) (hc : Bool) (xo : SubmitOutcome)
       (so : MrSubmit) (eo : SubmitOutcome),
       ((rkCycle cfg s p? eb i? now hc xo so eo).2.all eventOk) = true) := by
  refine ⟨?_, ?_, ?_⟩
  · intro cfg s p? i? now hc xo eo
    rcases p? with _ | price
    · rfl
    rcases i? with _ | ind
    · rfl
    simp only [mrCycle]
    repeat' split
    all_goals simp [eventOk]
  · intro cfg s p? i? now hc xo eo
    rcases p? with _ | price
    · rfl
    rcases i? with _ | ind
    · rfl
    simp only [bkCycle, bkCycleExitPhase, bkCycleEntryPhase]
    repeat' split
    all_goals simp [eventOk]
  · intro cfg s p? eb i? now hc xo so eo
    rcases p? with _ | price
    · rfl
    by_cases heb : eb
    all_goals rcases i? with _ | ind
    all_goals simp only [rkCycle, heb]
    all_goals repeat' split
    all_goals simp [eventOk]

/-- C9 counterexample: the claim quantifies over EVERY strategy variant, but
`MeanReversionTrader.run` has no cooldown (or pause) mechanism at all: in the
very cycle in which a position exit completes, the loop falls through to
`if not self._current_position` and evaluates a new entry zero seconds after
the exit — before any positive cooldown could have elapsed. -/
theorem c9_meanrev_entry_evaluated_at_exit_time :
    (mrCycle mrDefaults
       ⟨some ⟨"long", 100, 1/10, 9994/100, 10003/100, 0, 0⟩, [], []⟩
       (some (999/10)) (some ⟨0, 0, 0, 0, 0, 50, 0, 0, 0⟩) 1 true
       .raise .raise).2 =
    [Event.checkedExit true, Event.exited, Event.checkedEntry false] := by
  have hls : ("long" : String) ≠ "short" := by decide
  norm_num [mrCycle, mrCheckExit, mrExitPosition, mrCheckEntry, mrDefaults, hls]

/-- Entering a position changes neither the exit timestamp nor the cooldown
field (renko). -/
theorem rkEnterPosition_keeps_cooldown_fields (cfg : RkConfig) (s : RkState)
    (sig : MrSignal) (now : ℚ) (hc : Bool) (out : SubmitOutcome) :
    (rkEnterPosition cfg s sig now hc out).lastExitTime = s.lastExitTime ∧
    (rkEnterPosition cfg s sig now hc out).exitCooldown = s.exitCooldown := by
  unfold rkEnterPosition
  repeat' split
  all_goals simp

/-- Entering a position changes neither the exit timestamp nor the cooldown
field (breakout). -/
theorem bkEnterPosition_keeps_cooldown_fields (cfg : BkConfig) (s : BkState)
    (sig : BkSignal) (now : ℚ) (hc : Bool) (out : SubmitOutcome) :
    (bkEnterPosition cfg s sig now hc out).lastExitTime = s.lastExitTime ∧
    (bkEnterPosition cfg s sig now hc out).exitCooldown = s.exitCooldown := by
  unfold bkEnterPosition
  repeat' split
  all_goals simp

/-- The renko adaptive cooldown in closed multiplicative form. -/
theorem rk_cooldown_factors (cfg : RkConfig) (i : RkIndicators) (p : ℚ)
    (b : Option ℚ) (rs : List String) (st : ℕ) :
    rkAdaptiveCooldown cfg (some i) (some p) b rs st =
      min (cfg.base_exit_cooldown_seconds *
        (if 8 < rkVolBps b p then 3/2 else if rkVolBps b p < 2 then 8/10 else 1) *
        (if 2 ≤ (rs.filter (· = "stop_loss")).length then 13/10 else 1) *
        (if 2 ≤ st then 12/10 else 1)) 60 := by
  unfold rkAdaptiveCooldown
  by_cases h1 : rkVolBps b p > 8
  · by_cases h2 : 2 ≤ (rs.filter (· = "stop_loss")).length
    all_goals by_cases h3 : 2 ≤ st
    all_goals simp only [h1, h2, h3, if_true, if_false, if_pos, if_neg,
      not_false_iff, gt_iff_lt]
    all_goals simp [h2, h3]
  · by_cases h1' : rkVolBps b p < 2
    all_goals by_cases h2 : 2 ≤ (rs.filter (· = "stop_loss")).length
    all_goals by_cases h3 : 2 ≤ st
    all_goals simp only [gt_iff_lt] at h1
    all_goals simp only [h1, h1', h2, h3, if_true, if_false]
    all_goals simp [h1, h1', h2, h3]

/-- The breakout adaptive cooldown in closed multiplicative form. -/
theorem bk_cooldown_factors (cfg : BkConfig) (i : BkIndicators)
    (rs : List String) (st : ℕ) :
    bkAdaptiveCooldown cfg (some i) rs st =
      min (cfg.base_exit_cooldown_seconds *
        (if 10 < i.volatility_bps then 3/2
         else if i.volatility_bps < 3 then 8/10 else 1) *
        (if 2 ≤ (rs.filter (· = "stop_loss")).length then 13/10 else 1) *
        (if 2 ≤ st then 12/10 else 1) *
        (if rs.any (· = "breakout_failure") then 2 else 1)) 120 := by
  unfold bkAdaptiveCooldown
  by_cases h1 : i.volatility_bps > 10
  · by_cases h2 : 2 ≤ (rs.filter (· = "stop_loss")).length
    all_goals by_cases h3 : 2 ≤ st
    all_goals by_cases h4 : rs.any (· = "breakout_failure")
    all_goals simp only [h1, h2, h3, h4, if_true, if_false, gt_iff_lt]
    all_goals simp [h2, h3, h4]
  · by_cases h1' : i.volatility_bps < 3
    all_goals by_cases h2 : 2 ≤ (rs.filter (· = "stop_loss")).length
    all_goals by_cases h3 : 2 ≤ st
    all_goals by_cases h4 : rs.any (· = "breakout_failure")
    all_goals simp only [gt_iff_lt] at h1
    all_goals simp only [h1, h1', h2, h3, h4, if_true, if_false]
    all_goals simp [h1, h1', h2, h3, h4]

/-- The breakout exit phase never evaluates an entry. -/
theorem bkCycleExitPhase_no_checkedEntry (cfg : BkConfig) (s : BkState)
    (price : ℚ) (ind : BkIndicators) (now : ℚ) (hc : Bool)
    (xo : SubmitOutcome) (b : Bool) :
    Event.checkedEntry b ∉ (bkCycleExitPhase cfg s price ind now hc xo).2 := by
  unfold bkCycleExitPhase
  rcases s.pos with _ | pos
  · simp
  · dsimp only
    rcases (bkCheckExit cfg pos s.mfe s.mae s.candles price ind now).2.2.2
      with _ | reason
    · simp
    · dsimp only
      rw [List.mem_append]
      rintro (h | h)
      · simp at h
      · split at h
        all_goals simp at h

/-- In the breakout entry phase, an entry is evaluated only when the time
since the last exit has reached the adaptive cooldown stored in the
resulting state. -/
theorem bkCycleEntryPhase_gating (cfg : BkConfig) (s1 : BkState) (price : ℚ)
    (ind : BkIndicators) (now : ℚ) (hc : Bool) (eo : SubmitOutcome)
    (r2 : BkState) (ev2 : List Event)
    (heq : bkCycleEntryPhase cfg s1 price ind now hc eo = (r2, ev2))
    (hmem : Event.checkedEntry false ∈ ev2) :
    now - r2.lastExitTime ≥ r2.exitCooldown := by
  unfold bkCycleEntryPhase at heq
  rcases hpos : s1.pos with _ | pos
  · simp only [hpos] at heq
    by_cases hpause : now < s1.pauseUntil
    · rw [if_pos hpause] at heq
      cases heq
      simp at hmem
    rw [if_neg hpause] at heq
    try dsimp only at heq
    by_cases hgate : now - s1.lastExitTime <
        bkAdaptiveCooldown cfg (some ind) s1.recentExitReasons s1.losingStreak
    · rw [if_pos hgate] at heq
      cases heq
      simp at hmem
    rw [if_neg hgate] at heq
    rcases hent : bkCheckEntry cfg price ind s1.candles with _ | sig
    · rw [hent] at heq
      cases heq
      dsimp only
      linarith [not_lt.mp hgate]
    · rw [hent] at heq
      cases heq
      rw [(bkEnterPosition_keeps_cooldown_fields _ _ _ _ _ _).1,
          (bkEnterPosition_keeps_cooldown_fields _ _ _ _ _ _).2]
      dsimp only
      linarith [not_lt.mp hgate]
  · simp only [hpos] at heq
    cases heq
    simp at hmem

/-- C9 amended: in the renko and breakout variants (the mean-reversion
variant has no cooldown mechanism — see the counterexample), whenever a cycle
evaluates an entry, the time since the last completed exit is at least the
adaptive cooldown currently in force; the adaptive cooldown is capped (60 s
renko, 120 s breakout), is scaled up from its base under high volatility,
repeated stop-loss exits, or a losing streak of 2+, and is scaled down under
low volatility. -/
theorem c9_amended :
    (∀ (cfg : RkConfig) (s : RkState) (p? : Option ℚ) (eb : Bool)
       (i? : Option RkIndicators) (now : ℚ) (hc : Bool) (xo : SubmitOutcome)
       (so : MrSubmit) (eo : SubmitOutcome) (r : RkState) (evs : List Event),
       rkCycle cfg s p? eb i? now hc xo so eo = (r, evs) →
       Event.checkedEntry false ∈ evs →
       now - r.lastExitTime ≥ r.exitCooldown) ∧
    (∀ (cfg : BkConfig) (s : BkState) (p? : Option ℚ)
       (i? : Option BkIndicators) (now : ℚ) (hc : Bool)
       (xo eo : SubmitOutcome) (r : BkState) (evs : List Event),
       bkCycle cfg s p? i? now hc xo eo = (r, evs) →
       Event.checkedEntry false ∈ evs →
       now - r.lastExitTime ≥ r.exitCooldown) ∧
    (∀ (cfg : RkConfig) (i : RkIndicators) (p : ℚ) (b : Option ℚ)
       (rs : List String) (st : ℕ),
       rkAdaptiveCooldown cfg (some i) (some p) b rs st ≤ 60) ∧
    (∀ (cfg : BkConfig) (i : BkIndicators) (rs : List String) (st : ℕ),
       bkAdaptiveCooldown cfg (some i) rs st ≤ 120) ∧
    (∀ (cfg : RkConfig) (i1 i2 : RkIndicators) (p1 p2 : ℚ) (b1 b2 : Option ℚ)
       (rs : List String) (st : ℕ),
       0 ≤ cfg.base_exit_cooldown_seconds →
       8 < rkVolBps b1 p1 → 2 ≤ rkVolBps b2 p2 → rkVolBps b2 p2 ≤ 8 →
       rkAdaptiveCooldown cfg (some i2) (some p2) b2 rs st ≤
         rkAdaptiveCooldown cfg (some i1) (some p1) b1 rs st) ∧
    (∀ (cfg : RkConfig) (i1 i2 : RkIndicators) (p1 p2 : ℚ) (b1 b2 : Option ℚ)
       (rs : List String) (st : ℕ),
       0 ≤ cfg.base_exit_cooldown_seconds →
       rkVolBps b1 p1 < 2 → 2 ≤ rkVolBps b2 p2 → rkVolBps b2 p2 ≤ 8 →
       rkAdaptiveCooldown cfg (some i1) (some p1) b1 rs st ≤
         rkAdaptiveCooldown cfg (some i2) (some p2) b2 rs st) ∧
    (∀ (cfg : RkConfig) (i : RkIndicators) (p : ℚ) (b : Option ℚ)
       (rs1 rs2 : List String) (st : ℕ),
       0 ≤ cfg.base_exit_cooldown_seconds →
       2 ≤ (rs1.filter (· = "stop_loss")).length →
       (rs2.filter (· = "stop_loss")).length < 2 →
       rkAdaptiveCooldown cfg (some i) (some p) b rs2 st ≤
         rkAdaptiveCooldown cfg (some i) (some p) b rs1 st) ∧
    (∀ (cfg : RkConfig) (i : RkIndicators) (p : ℚ) (b : Option ℚ)
       (rs : List String) (st1 st2 : ℕ),
       0 ≤ cfg.base_exit_cooldown_seconds →
       2 ≤ st1 → st2 < 2 →
       rkAdaptiveCooldown cfg (some i) (some p) b rs st2 ≤
         rkAdaptiveCooldown cfg (some i) (some p) b rs st1) ∧
    (∀ (cfg : BkConfig) (i1 i2 : BkIndicators) (rs : List String) (st : ℕ),
       0 ≤ cfg.base_exit_cooldown_seconds →
       10 < i1.volatility_bps → 3 ≤ i2.volatility_bps →
       i2.volatility_bps ≤ 10 →
       bkAdaptiveCooldown cfg (some i2) rs st ≤
         bkAdaptiveCooldown cfg (some i1) rs st) ∧
    (∀ (cfg : BkConfig) (i1 i2 : BkIndicators) (rs : List String) (st : ℕ),
       0 ≤ cfg.base_exit_cooldown_seconds →
       i1.volatility_bps < 3 → 3 ≤ i2.volatility_bps →
       i2.volatility_bps ≤ 10 →
       bkAdaptiveCooldown cfg (some i1) rs st ≤
         bkAdaptiveCooldown cfg (some i2) rs st) ∧
    (∀ (cfg : BkConfig) (i : BkIndicators) (rs1 rs2 : List String) (st : ℕ),
       0 ≤ cfg.base_exit_cooldown_seconds →
       2 ≤ (rs1.filter (· = "stop_loss")).length →
       (rs2.filter (· = "stop_loss")).length < 2 →
       (rs1.any (· = "breakout_failure")) = (rs2.any (· = "breakout_failure")) →
       bkAdaptiveCooldown cfg (some i) rs2 st ≤
         bkAdaptiveCooldown cfg (some i) rs1 st) ∧
    (∀ (cfg : BkConfig) (i : BkIndicators) (rs : List String) (st1 st2 : ℕ),
       0 ≤ cfg.base_exit_cooldown_seconds →
       2 ≤ st1 → st2 < 2 →
       bkAdaptiveCooldown cfg (some i) rs st2 ≤
         bkAdaptiveCooldown cfg (some i) rs st1) := by
  refine ⟨?_, ?_, ?_, ?_, ?_, ?_, ?_, ?_, ?_, ?_, ?_, ?_⟩
  · -- renko gating
    intro cfg s p? eb i? now hc xo so eo r evs heq hmem
    rcases p? with _ | price
    · simp only [rkCycle] at heq
      cases heq
      simp at hmem
    rcases eb with _ | _
    · -- not enough bricks: the cycle is a no-op
      simp only [rkCycle] at heq
      rw [if_pos (by simp)] at heq
      cases heq
      simp at hmem
    simp only [rkCycle] at heq
    rw [if_neg (by simp)] at heq
    rcases i? with _ | ind
    · cases heq
      simp at hmem
    rcases hpos : s.pos with _ | pos
    · simp only [hpos] at heq
      by_cases hpause : now < s.pauseUntil
      · rw [if_pos hpause] at heq
        cases heq
        simp at hmem
      rw [if_neg hpause] at heq
      try dsimp only at heq
      by_cases hgate : now - s.lastExitTime < rkAdaptiveCooldown cfg (some ind)
          (some price) s.brickSize s.recentExitReasons s.losingStreak
      · rw [if_pos hgate] at heq
        cases heq
        simp at hmem
      rw [if_neg hgate] at heq
      rcases hent : rkCheckEntry cfg price ind with _ | sig
      · rw [hent] at heq
        cases heq
        dsimp only
        linarith [not_lt.mp hgate]
      · rw [hent] at heq
        cases heq
        rw [(rkEnterPosition_keeps_cooldown_fields _ _ _ _ _ _).1,
            (rkEnterPosition_keeps_cooldown_fields _ _ _ _ _ _).2]
        dsimp only
        linarith [not_lt.mp hgate]
    · simp only [hpos] at heq
      rcases hce : rkCheckExit cfg pos price ind now with _ | reason
      · rw [hce] at heq
        cases hsc : cfg.enable_scaling
        · rw [hsc] at heq
          rw [if_neg (by simp)] at heq
          cases heq
          simp at hmem
        · rw [hsc] at heq
          rw [if_pos (by simp)] at heq
          cases heq
          simp at hmem
      · rw [hce] at heq
        try dsimp only at heq
        cases heq
        rw [List.mem_append] at hmem
        rcases hmem with h | h
        · simp at h
        · split at h
          all_goals simp at h
  · -- breakout gating
    intro cfg s p? i? now hc xo eo r evs heq hmem
    rcases p? with _ | price
    · simp only [bkCycle] at heq
      cases heq
      simp at hmem
    rcases i? with _ | ind
    · simp only [bkCycle] at heq
      cases heq
      simp at hmem
    simp only [bkCycle] at heq
    rcases h1 : bkCycleExitPhase cfg s price ind now hc xo with ⟨s1, ev1⟩
    rw [h1] at heq
    try dsimp only at heq
    rcases h2 : bkCycleEntryPhase cfg s1 price ind now hc eo with ⟨s2, ev2⟩
    rw [h2] at heq
    try dsimp only at heq
    cases heq
    rw [List.mem_append] at hmem
    rcases hmem with h | h
    · have hno := bkCycleExitPhase_no_checkedEntry cfg s price ind now hc xo false
      rw [h1] at hno
      exact absurd h hno
    · exact bkCycleEntryPhase_gating _ _ _ _ _ _ _ _ _ h2 h
  · intro cfg i p b rs st
    rw [rk_cooldown_factors]
    exact min_le_right _ _
  · intro cfg i rs st
    rw [bk_cooldown_factors]
    exact min_le_right _ _
  · intro cfg i1 i2 p1 p2 b1 b2 rs st hb h1 h2 h3
    have hn1 : ¬ (8 < rkVolBps b2 p2) := by linarith
    have hn2 : ¬ (rkVolBps b2 p2 < 2) := by linarith
    rw [rk_cooldown_factors, rk_cooldown_factors, if_pos h1, if_neg hn1,
      if_neg hn2]
    refine min_le_min ?_ le_rfl
    have hsf : (0:ℚ) ≤ if 2 ≤ (rs.filter (· = "stop_loss")).length
        then 13/10 else 1 := by
      split
      all_goals norm_num
    have htf : (0:ℚ) ≤ if 2 ≤ st then 12/10 else 1 := by
      split
      all_goals norm_num
    refine mul_le_mul_of_nonneg_right
      (mul_le_mul_of_nonneg_right ?_ hsf) htf
    exact mul_le_mul_of_nonneg_left (by norm_num) hb
  · intro cfg i1 i2 p1 p2 b1 b2 rs st hb h1 h2 h3
    have hn0 : ¬ (8 < rkVolBps b1 p1) := by linarith
    have hn1 : ¬ (8 < rkVolBps b2 p2) := by linarith
    have hn2 : ¬ (rkVolBps b2 p2 < 2) := by linarith
    rw [rk_cooldown_factors, rk_cooldown_factors, if_neg hn0, if_pos h1,
      if_neg hn1, if_neg hn2]
    refine min_le_min ?_ le_rfl
    have hsf : (0:ℚ) ≤ if 2 ≤ (rs.filter (· = "stop_loss")).length
        then 13/10 else 1 := by
      split
      all_goals norm_num
    have htf : (0:ℚ) ≤ if 2 ≤ st then 12/10 else 1 := by
      split
      all_goals norm_num
    refine mul_le_mul_of_nonneg_right
      (mul_le_mul_of_nonneg_right ?_ hsf) htf
    exact mul_le_mul_of_nonneg_left (by norm_num) hb
  · intro cfg i p b rs1 rs2 st hb h1 h2
    have hn1 : ¬ (2 ≤ (rs2.filter (· = "stop_loss")).length) := by omega
    rw [rk_cooldown_factors, rk_cooldown_factors, if_pos h1, if_neg hn1]
    refine min_le_min ?_ le_rfl
    have hvf : (0:ℚ) ≤ if 8 < rkVolBps b p then 3/2
        else if rkVolBps b p < 2 then 8/10 else 1 := by
      split
      · norm_num
      · split
        all_goals norm_num
    have htf : (0:ℚ) ≤ if 2 ≤ st then 12/10 else 1 := by
      split
      all_goals norm_num
    refine mul_le_mul_of_nonneg_right ?_ htf
    exact mul_le_mul_of_nonneg_left (by norm_num) (mul_nonneg hb hvf)
  · intro cfg i p b rs st1 st2 hb h1 h2
    have hn1 : ¬ (2 ≤ st2) := by omega
    rw [rk_cooldown_factors, rk_cooldown_factors, if_pos h1, if_neg hn1]
    refine min_le_min ?_ le_rfl
    have hvf : (0:ℚ) ≤ if 8 < rkVolBps b p then 3/2
        else if rkVolBps b p < 2 then 8/10 else 1 := by
      split
      · norm_num
      · split
        all_goals norm_num
    have hsf : (0:ℚ) ≤ if 2 ≤ (rs.filter (· = "stop_loss")).length
        then 13/10 else 1 := by
      split
      all_goals norm_num
    exact mul_le_mul_of_nonneg_left (by norm_num)
      (mul_nonneg (mul_nonneg hb hvf) hsf)
  · intro cfg i1 i2 rs st hb h1 h2 h3
    have hn1 : ¬ (10 < i2.volatility_bps) := by linarith
    have hn2 : ¬ (i2.volatility_bps < 3) := by linarith
    rw [bk_cooldown_factors, bk_cooldown_factors, if_pos h1, if_neg hn1,
      if_neg hn2]
    refine min_le_min ?_ le_rfl
    have hsf : (0:ℚ) ≤ if 2 ≤ (rs.filter (· = "stop_loss")).length
        then 13/10 else 1 := by
      split
      all_goals norm_num
    have htf : (0:ℚ) ≤ if 2 ≤ st then 12/10 else 1 := by
      split
      all_goals norm_num
    have hbf : (0:ℚ) ≤ if rs.any (· = "breakout_failure") then 2 else 1 := by
      split
      all_goals norm_num
    refine mul_le_mul_of_nonneg_right (mul_le_mul_of_nonneg_right
      (mul_le_mul_of_nonneg_right ?_ hsf) htf) hbf
    exact mul_le_mul_of_nonneg_left (by norm_num) hb
  · intro cfg i1 i2 rs st hb h1 h2 h3
    have hn0 : ¬ (10 < i1.volatility_bps) := by linarith
    have hn1 : ¬ (10 < i2.volatility_bps) := by linarith
    have hn2 : ¬ (i2.volatility_bps < 3) := by linarith
    rw [bk_cooldown_factors, bk_cooldown_factors, if_neg hn0, if_pos h1,
      if_neg hn1, if_neg hn2]
    refine min_le_min ?_ le_rfl
    have hsf : (0:ℚ) ≤ if 2 ≤ (rs.filter (· = "stop_loss")).length
        then 13/10 else 1 := by
      split
      all_goals norm_num
    have htf : (0:ℚ) ≤ if 2 ≤ st then 12/10 else 1 := by
      split
      all_goals norm_num
    have hbf : (0:ℚ) ≤ if rs.any (· = "breakout_failure") then 2 else 1 := by
      split
      all_goals norm_num
    refine mul_le_mul_of_nonneg_right (mul_le_mul_of_nonneg_right
      (mul_le_mul_of_nonneg_right ?_ hsf) htf) hbf
    exact mul_le_mul_of_nonneg_left (by norm_num) hb
  · intro cfg i rs1 rs2 st hb h1 h2 h3
    have hn1 : ¬ (2 ≤ (rs2.filter (· = "stop_loss")).length) := by omega
    rw [bk_cooldown_factors, bk_cooldown_factors, if_pos h1, if_neg hn1, h3]
    refine min_le_min ?_ le_rfl
    have hvf : (0:ℚ) ≤ if 10 < i.volatility_bps then 3/2
        else if i.volatility_bps < 3 then 8/10 else 1 := by
      split
      · norm_num
      · split
        all_goals norm_num
    have htf : (0:ℚ) ≤ if 2 ≤ st then 12/10 else 1 := by
      split
      all_goals norm_num
    have hbf : (0:ℚ) ≤ if rs2.any (· = "breakout_failure") then 2 else 1 := by
      split
      all_goals norm_num
    refine mul_le_mul_of_nonneg_right (mul_le_mul_of_nonneg_right ?_ htf) hbf
    exact mul_le_mul_of_nonneg_left (by norm_num) (mul_nonneg hb hvf)
  · intro cfg i rs st1 st2 hb h1 h2
    have hn1 : ¬ (2 ≤ st2) := by omega
    rw [bk_cooldown_factors, bk_cooldown_factors, if_pos h1, if_neg hn1]
    refine min_le_min ?_ le_rfl
    have hvf : (0:ℚ) ≤ if 10 < i.volatility_bps then 3/2
        else if i.volatility_bps < 3 then 8/10 else 1 := by
      split
      · norm_num
      · split
        all_goals norm_num
    have hsf : (0:ℚ) ≤ if 2 ≤ (rs.filter (· = "stop_loss")).length
        then 13/10 else 1 := by
      split
      all_goals norm_num
    have hbf : (0:ℚ) ≤ if rs.any (· = "breakout_failure") then 2 else 1 := by
      split
      all_goals norm_num
    refine mul_le_mul_of_nonneg_right ?_ hbf
    exact mul_le_mul_of_nonneg_left (by norm_num)
      (mul_nonneg (mul_nonneg hb hvf) hsf)

/-- The trailing-stop update never changes the position side. -/
theorem bkApplyTrailingStop_side (cfg : BkConfig) (pos : BkPosition)
    (mfe price : ℚ) (ind : BkIndicators) :
    (bkApplyTrailingStop cfg pos mfe price ind).side = pos.side := by
  unfold bkApplyTrailingStop
  split_ifs
  all_goals rfl

/-- The trailing-stop update never changes the recorded breakout level. -/
theorem bkApplyTrailingStop_breakout (cfg : BkConfig) (pos : BkPosition)
    (mfe price : ℚ) (ind : BkIndicators) :
    (bkApplyTrailingStop cfg pos mfe price ind).breakout_level =
      pos.breakout_level := by
  unfold bkApplyTrailingStop
  split_ifs
  all_goals rfl

/-- C5: with the default breakout configuration, a price of 110 against a
recent-high breakout level of 108, RSI 65, MACD above its signal line, ATR
expanding — and the scenario's implicit side conditions satisfied (volatility
inside the [3,15] bps filter window, the latest candle closing at 110, EMAs
aligned with price above the fast EMA) — the entry check emits a long Signal
whose `breakout_level` is 108; and for any open long position carrying
breakout level 108, a candle close back below 108 makes the exit check
return `"breakout_failure"` even when price is still above the stop-loss. -/
theorem c5_breakout_scenario :
    (∀ (ind : BkIndicators) (candles : List Candle) (lc : Candle),
       ind.breakout_level_long = some 108 →
       ind.rsi = 65 →
       ind.macd > ind.macd_signal →
       ind.atr_expanding = true →
       3 ≤ ind.volatility_bps →
       ind.volatility_bps ≤ 15 →
       candles.getLast? = some lc →
       lc.close = 110 →
       ind.ema_20 > ind.ema_50 →
       ind.ema_20 < 110 →
       ∃ sig, bkCheckEntry bkDefaults 110 ind candles = some sig ∧
         sig.side = "long" ∧ sig.breakout_level = 108) ∧
    (∀ (cfg : BkConfig) (pos : BkPosition) (mfe? mae? : Option ℚ)
       (candles : List Candle) (lc : Candle) (price : ℚ)
       (ind : BkIndicators) (now : ℚ),
       pos.side = "long" →
       pos.breakout_level = 108 →
       candles.getLast? = some lc →
       lc.close < 108 →
       pos.stop_loss < price →
       (bkCheckExit cfg pos mfe? mae? candles price ind now).2.2.2 =
         some "breakout_failure") := by
  constructor
  · intro ind candles lc hbl hrsi hmacd hatr hvlo hvhi hlast hclose hema hema20
    have h1 : ¬ (ind.volatility_bps < bkDefaults.atr_min_bps ∨
        ind.volatility_bps > bkDefaults.atr_max_bps) := by
      show ¬ (ind.volatility_bps < 3 ∨ ind.volatility_bps > 15)
      push_neg
      exact ⟨hvlo, hvhi⟩
    refine ⟨bkCreateSignal bkDefaults "long" 110 ind 108, ?_, rfl, rfl⟩
    unfold bkCheckEntry
    rw [if_neg h1, hbl, hlast]
    dsimp only
    rw [if_pos (by norm_num)]
    rw [if_pos ?entry]
    case entry =>
      refine ⟨by rw [hclose]; norm_num, ?_, hmacd, hatr, hema, ?_⟩
      · rw [hrsi]
        show (65:ℚ) > 60
        norm_num
      · exact hema20
  · intro cfg pos mfe? mae? candles lc price ind now hside hbl hlast hclose hstop
    unfold bkCheckExit
    rw [hlast]
    dsimp only
    rw [if_pos ⟨by rw [bkApplyTrailingStop_side]; exact hside,
      by rw [bkApplyTrailingStop_breakout, hbl]; exact hclose⟩]

/-- C5 witness: the scenario instantiated at concrete indicator values and
candle windows. -/
theorem c5_breakout_scenario_witness :
    (∃ sig, bkCheckEntry bkDefaults 110
        ⟨109, 100, 65, 1, 1/2, 0, 1, 0, 0, 0, 0, 5, 110, 90, some 108,
         some 90, true, false⟩ [candleOfClose 0 110] = some sig ∧
       sig.side = "long" ∧ sig.breakout_level = 108) ∧
    (bkCheckExit bkDefaults ⟨"long", 110, 1/1000, 213/2, 112, 0, 108, 0⟩
        none none [candleOfClose 1 (215/2)] 107
        ⟨109, 100, 65, 1, 1/2, 0, 1, 0, 0, 0, 0, 5, 110, 90, some 108,
         some 90, true, false⟩ 10).2.2.2 = some "breakout_failure" := by
  constructor
  · exact c5_breakout_scenario.1 _ _ _ rfl rfl (by norm_num) rfl (by norm_num)
      (by norm_num) rfl rfl (by norm_num) (by norm_num)
  · exact c5_breakout_scenario.2 bkDefaults _ none none _ _ 107 _ 10 rfl rfl
      rfl (by norm_num [candleOfClose]) (by norm_num)

/-- C9 witness: the amended cooldown discipline applied at concrete inputs —
a flat renko cycle at `now = 100` with last exit at 0 evaluates an entry and
indeed `100 - 0` exceeds the adaptive cooldown in force, a high-volatility
brick size yields at least the cooldown of a mid-volatility one, and the
adaptive value respects the 60-second cap. -/
theorem c9_amended_witness :
    (100 - (rkCycle rkDefaults ⟨none, [], [], [], 0, 0, 0, 10, [], none⟩
        (some 100) true (some ⟨0, 0, "neutral", 0, 0, 0, 0, none, 0⟩) 100
        true .raise .raise .raise).1.lastExitTime ≥
      (rkCycle rkDefaults ⟨none, [], [], [], 0, 0, 0, 10, [], none⟩
        (some 100) true (some ⟨0, 0, "neutral", 0, 0, 0, 0, none, 0⟩) 100
        true .raise .raise .raise).1.exitCooldown) ∧
    (rkAdaptiveCooldown rkDefaults (some ⟨0, 0, "neutral", 0, 0, 0, 0, none, 0⟩)
        (some 100) (some (5/100)) [] 0 ≤
      rkAdaptiveCooldown rkDefaults (some ⟨0, 0, "neutral", 0, 0, 0, 0, none, 0⟩)
        (some 100) (some 2) [] 0) ∧
    rkAdaptiveCooldown rkDefaults (some ⟨0, 0, "neutral", 0, 0, 0, 0, none, 0⟩)
      (some 100) (some 2) [] 0 ≤ 60 := by
  refine ⟨?_, ?_, ?_⟩
  · have hcd : rkAdaptiveCooldown rkDefaults
        (some ⟨0, 0, "neutral", 0, 0, 0, 0, none, 0⟩) (some 100) none [] 0 = 8 := by
      norm_num [rkAdaptiveCooldown, rkVolBps, rkDefaults]
    have hcyc : rkCycle rkDefaults ⟨none, [], [], [], 0, 0, 0, 10, [], none⟩
        (some 100) true (some ⟨0, 0, "neutral", 0, 0, 0, 0, none, 0⟩) 100
        true .raise .raise .raise =
        (⟨none, [], [], [], 0, 0, 0, 8, [], none⟩,
         [Event.checkedEntry false]) := by
      unfold rkCycle
      dsimp only
      rw [if_neg (by simp)]
      try dsimp only
      rw [if_neg (by norm_num), hcd]
      try dsimp only
      rw [if_neg (by norm_num)]
      rw [show rkCheckEntry rkDefaults 100 ⟨0, 0, "neutral", 0, 0, 0, 0, none, 0⟩
        = none from by norm_num [rkCheckEntry]]
    rw [hcyc]
    exact c9_amended.1 rkDefaults ⟨none, [], [], [], 0, 0, 0, 10, [], none⟩
      (some 100) true (some ⟨0, 0, "neutral", 0, 0, 0, 0, none, 0⟩) 100
      true .raise .raise .raise _ _ hcyc (by simp)
  · exact c9_amended.2.2.2.2.1 rkDefaults _ _ 100 100 (some 2) (some (5/100))
      [] 0 (by norm_num [rkDefaults]) (by norm_num [rkVolBps])
      (by norm_num [rkVolBps]) (by norm_num [rkVolBps])
  · exact c9_amended.2.2.1 rkDefaults _ 100 (some 2) [] 0

/-- One `_check_scale_in` call preserves the scaled-position bookkeeping
invariant. -/
theorem rkCheckScaleIn_preserves (cfg : RkConfig) (p0 s0 : ℚ) (s : RkState)
    (price : ℚ) (ind : RkIndicators) (now : ℚ) (out : MrSubmit)
    (h : ScaleInv cfg p0 s0 s) :
    ScaleInv cfg p0 s0 (rkCheckScaleIn cfg s price ind now out) := by
  obtain ⟨hlen, hsz, pos, hpos, hposz, hsum, hprod⟩ := h
  have hinv : ScaleInv cfg p0 s0 s := ⟨hlen, hsz, pos, hpos, hposz, hsum, hprod⟩
  unfold rkCheckScaleIn
  rw [hpos]
  dsimp only
  repeat' split
  all_goals first
  | exact hinv
  | (have hscpos : (0:ℚ) < max (1/1000)
        (min (pos.initial_size * cfg.scale_size_multiplier) cfg.max_position_size) :=
      lt_of_lt_of_le (by norm_num) (le_max_left _ _)
     refine ⟨?_, ?_, _, rfl, ?_, ?_, ?_⟩
     · simp only [List.length_append, List.length_cons, List.length_nil]
       omega
     · intro e he
       simp only [List.mem_append, List.mem_singleton] at he
       rcases he with he | rfl
       · exact hsz e he
       · exact hscpos
     · dsimp only
       linarith
     · dsimp only
       simp only [List.map_append, List.map_cons, List.map_nil,
         List.sum_append, List.sum_cons, List.sum_nil]
       linarith
     · dsimp only
       simp only [List.map_append, List.map_cons, List.map_nil,
         List.sum_append, List.sum_cons, List.sum_nil]
       rw [div_mul_cancel₀ _ (by linarith : pos.size + max (1/1000)
         (min (pos.initial_size * cfg.scale_size_multiplier)
           cfg.max_position_size) ≠ 0)]
       linarith)

/-- C8: renko position scaling — (1) whenever a `_check_scale_in` call
actually adds a scale fill, the total position size strictly increases;
(2) a freshly entered position (no scale fills yet, positive size)
satisfies the bookkeeping invariant; (3) the invariant — scale count within
`max_scales`, positive fill sizes, and the position's size/entry aggregates
matching the initial fill plus all scale fills — is preserved by every
sequence of scale-in opportunities; (4) under the invariant the entry price
is exactly the size-weighted mean of the initial fill and all scale
fills. -/
theorem c8_scaling_invariants :
    (∀ (cfg : RkConfig) (s : RkState) (price : ℚ) (ind : RkIndicators)
       (now : ℚ) (out : MrSubmit) (s' : RkState),
       rkCheckScaleIn cfg s price ind now out = s' →
       s.scaledEntries.length < s'.scaledEntries.length →
       ∃ pos pos', s.pos = some pos ∧ s'.pos = some pos' ∧
         pos.size < pos'.size) ∧
    (∀ (cfg : RkConfig) (s : RkState) (pos0 : RkPosition),
       s.pos = some pos0 → s.scaledEntries = [] → 0 < pos0.size →
       ScaleInv cfg pos0.entry_price pos0.size s) ∧
    (∀ (cfg : RkConfig) (p0 s0 : ℚ) (s : RkState)
       (steps : List (ℚ × RkIndicators × ℚ × MrSubmit)),
       ScaleInv cfg p0 s0 s → ScaleInv cfg p0 s0 (applyScaleIns cfg s steps)) ∧
    (∀ (cfg : RkConfig) (p0 s0 : ℚ) (s : RkState),
       ScaleInv cfg p0 s0 s →
       ∃ pos, s.pos = some pos ∧
         pos.entry_price =
           (p0 * s0 + (s.scaledEntries.map (fun e => e.price * e.size)).sum) /
             (s0 + (s.scaledEntries.map ScaledEntry.size).sum)) := by
  refine ⟨?_, ?_, ?_, ?_⟩
  · intro cfg s price ind now out s' heq hlt
    unfold rkCheckScaleIn at heq
    rcases hpos : s.pos with _ | pos
    · rw [hpos] at heq
      subst heq
      exact absurd hlt (lt_irrefl _)
    · rw [hpos] at heq
      dsimp only at heq
      repeat' split at heq
      all_goals subst heq
      all_goals try exact absurd hlt (lt_irrefl _)
      all_goals
        exact ⟨pos, _, rfl, rfl, by
          dsimp only
          have hscpos : (0:ℚ) < max (1/1000)
              (min (pos.initial_size * cfg.scale_size_multiplier)
                cfg.max_position_size) :=
            lt_of_lt_of_le (by norm_num) (le_max_left _ _)
          linarith⟩
  · intro cfg s pos0 h1 h2 h3
    refine ⟨by rw [h2]; exact Nat.zero_le _, by rw [h2]; intro e he; simp at he,
      pos0, h1, h3, by rw [h2]; simp, by rw [h2]; simp⟩
  · intro cfg p0 s0 s steps h
    induction steps generalizing s with
    | nil => exact h
    | cons i rest ih =>
        exact ih _ (rkCheckScaleIn_preserves cfg p0 s0 s i.1 i.2.1 i.2.2.1
          i.2.2.2 h)
  · intro cfg p0 s0 s h
    obtain ⟨hlen, hsz, pos, hpos, hposz, hsum, hprod⟩ := h
    refine ⟨pos, hpos, ?_⟩
    have hne : s0 + (s.scaledEntries.map ScaledEntry.size).sum ≠ 0 := by
      rw [← hsum]
      exact ne_of_gt hposz
    rw [eq_div_iff hne, ← hsum]
    exact hprod

/-- C8 witness: a fresh long position of size 0.1 at entry 100, scaled once
at price 99.9, ends with entry price equal to the size-weighted mean of the
two fills. -/
theorem c8_scaling_invariants_witness :
    ∃ pos, (applyScaleIns rkDefaults
        ⟨some ⟨"long", 100, 1/10, 1/10, 9993/100, 10012/100, 0, 1⟩, [], [1],
         [], 0, 0, 0, 10, [], none⟩
        [(999/10, ⟨0, 0, "neutral", 0, 0, 0, 0, some "bullish", 1/10⟩, 100,
          .success 2)]).pos = some pos ∧
      pos.entry_price =
        (100 * (1/10) + 999/10 * (1/20)) / (1/10 + 1/20) := by
  have h0 := c8_scaling_invariants.2.1 rkDefaults
      ⟨some ⟨"long", 100, 1/10, 1/10, 9993/100, 10012/100, 0, 1⟩, [], [1],
       [], 0, 0, 0, 10, [], none⟩
      ⟨"long", 100, 1/10, 1/10, 9993/100, 10012/100, 0, 1⟩ rfl rfl (by norm_num)
  have h1 := c8_scaling_invariants.2.2.1 rkDefaults _ _ _
      [(999/10, ⟨0, 0, "neutral", 0, 0, 0, 0, some "bullish", 1/10⟩, 100,
        .success 2)] h0
  obtain ⟨pos, hp, he⟩ := c8_scaling_invariants.2.2.2 rkDefaults _ _ _ h1
  refine ⟨pos, hp, ?_⟩
  rw [he]
  norm_num [applyScaleIns, rkCheckScaleIn, rkDefaults]
